import Mathlib

/-!
# The net/http client probe (probe.bpf.c): a shallow embedding

The probe is a set of hooks that run to completion against two kinds of state:
the memory of the monitored process (read and written through fallible kernel
helpers) and the probe's own BPF maps.  Each hook is a pure function from the
state before the hook to the state after it.  Every fallible helper call of a
hook takes its outcome from an outcome record, one field per call site, so a
statement quantified over the record covers every pattern of success and
failure.

Machine integers are naturals (u64, pointers) or integers (s64) with explicit
wrap-around.  Byte buffers are functions from an offset to a byte; the size of a
buffer is the size of its C declaration and is given wherever bytes are copied.
-/

namespace HttpClientProbe

/-! ## Bytes, buffers and the memory of the monitored process -/

/-- A byte buffer, offset to byte.  A byte is a natural below 256. -/
abbrev Buf := Nat → Nat

/-- The user memory of the monitored process, address to byte.  An address (a
pointer into the monitored process) is a natural below 2 ^ 64; 0 is NULL. -/
abbrev Mem := Nat → Nat

/-- Pointer plus offset in 64-bit arithmetic, as in (void*)(p + off). -/
def ptr_add (p off : Nat) : Nat := (p + off) % 18446744073709551616

/-- The all-zero buffer, what memset(.., 0, ..) leaves. -/
def zero_buf : Buf := fun _ => 0

/-- A C array initialised from a string literal: the literal's bytes, then zeros. -/
def lit_buf (l : List Nat) : Buf := fun i => l.getD i 0

/-- Copy n bytes of src into b at offset off, as memcpy(&b[off], src, n). -/
def buf_put (b : Buf) (off n : Nat) (src : Buf) : Buf :=
  fun i => if off ≤ i ∧ i < off + n then src (i - off) else b i

/-- The 8 bytes of a 64-bit value, little-endian. -/
def le64 (v : Nat) : Buf :=
  fun i => if i < 8 then (v % 18446744073709551616) / 256 ^ i % 256 else 0

/-- The memory after n bytes of data have been stored at p, what a successful
bpf_probe_write_user leaves; a failed one leaves the memory as it was. -/
def write_mem (m : Mem) (p : Nat) (n : Nat) (data : Buf) : Mem :=
  fun x => if p ≤ x ∧ x < p + n then data (x - p) else m x

/-- The n bytes of memory at p, as a buffer. -/
def read_mem (m : Mem) (p : Nat) (n : Nat) : Buf :=
  fun i => if i < n then m (p + i) else 0

/-- The 64-bit little-endian value stored at p. -/
def read_u64 (m : Mem) (p : Nat) : Nat :=
  m p % 256 + m (p + 1) % 256 * 256 + m (p + 2) % 256 * 65536
    + m (p + 3) % 256 * 16777216 + m (p + 4) % 256 * 4294967296
    + m (p + 5) % 256 * 1099511627776 + m (p + 6) % 256 * 281474976710656
    + m (p + 7) % 256 * 72057594037927936

/-- A 64-bit pattern read as a signed s64. -/
def to_s64 (u : Nat) : Int :=
  if u < 9223372036854775808 then (u : Int) else (u : Int) - 18446744073709551616

/-- The bit pattern of an s64. -/
def of_s64 (x : Int) : Nat := (x % 18446744073709551616).toNat

/-- An integer result brought back into the s64 range (two's complement). -/
def wrap_s64 (x : Int) : Int :=
  (x + 9223372036854775808) % 18446744073709551616 - 9223372036854775808

/-- The kernel helper bpf_probe_read_user / bpf_probe_read for a pointer-sized or
64-bit destination: the value at src when the read succeeds; on failure the
helper zero-fills the destination. -/
def bpf_probe_read_u64 (ok : Bool) (m : Mem) (src : Nat) : Nat :=
  if ok then read_u64 m src else 0

/-- The kernel helper bpf_probe_read_user for a destination of n bytes. -/
def bpf_probe_read_buf (ok : Bool) (m : Mem) (src : Nat) (n : Nat) : Buf :=
  if ok then read_mem m src n else zero_buf

/-! ## Constants and types declared in headers outside the file -/

/-- Modelled from the spec: W3C_KEY_LENGTH is declared in span_context.h, which
is not among the sources.  It is the length of the header name "traceparent",
the literal the source stores in char key[W3C_KEY_LENGTH]. -/
def W3C_KEY_LENGTH : Nat := 11

/-- Modelled from the spec: W3C_VAL_LENGTH is declared in span_context.h, which
is not among the sources.  It is the fixed total length of the propagation
string version-traceid-spanid-flags (2 + 1 + 32 + 1 + 16 + 1 + 2). -/
def W3C_VAL_LENGTH : Nat := 55

/-- Modelled from the spec: TRACE_ID_SIZE (span_context.h), the trace
identifier is 128 bits. -/
def TRACE_ID_SIZE : Nat := 16

/-- Modelled from the spec: SPAN_ID_SIZE (span_context.h), the span identifier
is 64 bits. -/
def SPAN_ID_SIZE : Nat := 8

/-- Modelled from the spec: struct span_context (span_context.h): trace
identifier, span identifier, flags. -/
structure span_context where
  TraceID : Buf
  SpanID : Buf
  TraceFlags : Nat

/-- The all-zero span context. -/
def zero_span_context : span_context :=
  { TraceID := zero_buf, SpanID := zero_buf, TraceFlags := 0 }

/-- The record struct http_request_t.  BASE_SPAN_PROPERTIES (a macro of a header
that is not among the sources) contributes the first four fields, the ones the
source reads and writes.  The field the source calls "opaque" is opaque_field
here. -/
structure http_request_t where
  start_time : Nat
  end_time : Nat
  sc : span_context
  psc : span_context
  host : Buf
  proto : Buf
  status_code : Nat
  method : Buf
  path : Buf
  scheme : Buf
  url_host : Buf
  opaque_field : Buf
  raw_path : Buf
  omit_host : Int
  force_query : Int
  raw_query : Buf
  fragment : Buf
  raw_fragment : Buf
  username : Buf

/-- The record after __builtin_memset(httpReq, 0, sizeof(struct http_request_t)). -/
def zero_http_request : http_request_t :=
  { start_time := 0, end_time := 0, sc := zero_span_context, psc := zero_span_context,
    host := zero_buf, proto := zero_buf, status_code := 0, method := zero_buf,
    path := zero_buf, scheme := zero_buf, url_host := zero_buf, opaque_field := zero_buf,
    raw_path := zero_buf, omit_host := 0, force_query := 0, raw_query := zero_buf,
    fragment := zero_buf, raw_fragment := zero_buf, username := zero_buf }

def MAX_HOSTNAME_SIZE : Nat := 256
def MAX_PROTO_SIZE : Nat := 8
def MAX_PATH_SIZE : Nat := 100
def MAX_SCHEME_SIZE : Nat := 8
def MAX_URL_HOST_SIZE : Nat := 8
def MAX_OPAQUE_SIZE : Nat := 8
def MAX_RAWPATH_SIZE : Nat := 8
def MAX_RAWQUERY_SIZE : Nat := 8
def MAX_FRAGMENT_SIZE : Nat := 8
def MAX_RAWFRAGMENT_SIZE : Nat := 8
def MAX_USERNAME_SIZE : Nat := 8
def MAX_METHOD_SIZE : Nat := 10
def MAX_CONCURRENT : Nat := 50

/-- The offsets injected at load time (the volatile const u64 globals). -/
structure Offsets where
  method_ptr_pos : Nat
  url_ptr_pos : Nat
  path_ptr_pos : Nat
  headers_ptr_pos : Nat
  ctx_ptr_pos : Nat
  buckets_ptr_pos : Nat
  status_code_pos : Nat
  request_host_pos : Nat
  request_proto_pos : Nat
  scheme_pos : Nat
  url_host_pos : Nat
  opaque_pos : Nat
  user_ptr_pos : Nat
  raw_path_pos : Nat
  omit_host_pos : Nat
  force_query_pos : Nat
  raw_query_pos : Nat
  fragment_pos : Nat
  raw_fragment_pos : Nat
  username_pos : Nat
  io_writer_buf_ptr_pos : Nat
  io_writer_n_pos : Nat

/-- The register file handed to a hook (struct pt_regs). -/
structure pt_regs where
  reg : Nat → Nat

/-- The spans registered as active, by context pointer (the maps of
go_context.h, which is not among the sources). -/
abbrev Tracked := List (Nat × span_context)

/-- The helpers of the included headers (arguments.h, span_context.h,
go_context.h, go_types.h, uprobe.h), none of which is among the sources.  They
are parameters of the embedding: every theorem holds for all of them. -/
structure Helpers where
  get_argument : pt_regs → Mem → Nat → Nat
  get_Go_context : pt_regs → Mem → Nat → Nat → Bool → Nat
  get_consistent_key : pt_regs → Nat → Nat
  get_parent_span_context : Tracked → Mem → Nat → Option span_context
  get_go_string_from_user_ptr : Mem → Nat → Buf → Nat → Bool × Buf
  span_context_to_w3c_string : span_context → Buf
  start_tracking_span : Tracked → Nat → span_context → Tracked
  stop_tracking_span : Tracked → span_context → span_context → Tracked
  is_register_abi : Bool

/-! ## BPF maps -/

/-- The helper bpf_map_lookup_elem on a hash map kept as an association list. -/
def bpf_map_lookup_elem {V : Type} : List (Nat × V) → Nat → Option V
  | [], _ => none
  | (k, v) :: rest, key => if k = key then some v else bpf_map_lookup_elem rest key

/-- The helper bpf_map_delete_elem. -/
def bpf_map_delete_elem {V : Type} : List (Nat × V) → Nat → List (Nat × V)
  | [], _ => []
  | (k, v) :: rest, key =>
    if k = key then bpf_map_delete_elem rest key else (k, v) :: bpf_map_delete_elem rest key

/-- A store through the pointer bpf_map_lookup_elem returned: the value under
key is replaced in place. -/
def map_store {V : Type} : List (Nat × V) → Nat → V → List (Nat × V)
  | [], _, _ => []
  | (k, v) :: rest, key, w =>
    if k = key then (k, w) :: map_store rest key w else (k, v) :: map_store rest key w

/-- The helper bpf_map_update_elem with flags 0 on a BPF_MAP_TYPE_HASH of
max entries: an existing key is overwritten; a new key is inserted unless the
map is full, in which case the update fails and the map is as before. -/
def bpf_map_update_elem {V : Type} (max : Nat) (m : List (Nat × V)) (key : Nat) (v : V) :
    List (Nat × V) :=
  match bpf_map_lookup_elem m key with
  | some _ => map_store m key v
  | none => if m.length < max then (key, v) :: m else m

/-- The helper bpf_map_update_elem on a BPF_MAP_TYPE_LRU_HASH: as for the hash
map, but a full map evicts an entry to make room (here the oldest one, the last
of the list). -/
def lru_map_update_elem {V : Type} (max : Nat) (m : List (Nat × V)) (key : Nat) (v : V) :
    List (Nat × V) :=
  match bpf_map_lookup_elem m key with
  | some _ => map_store m key v
  | none => if m.length < max then (key, v) :: m else (key, v) :: m.dropLast

/-! ## The state the hooks run against -/

/-- The state before and after a hook: the memory of the monitored process, the
record of the foreign allocations made so far, the probe's maps, the events
handed to the perf event array, and the registered active spans. -/
structure State where
  mem : Mem
  allocated : List (Nat × Nat)
  http_events : List (Nat × http_request_t)
  http_headers : List (Nat × Nat)
  golang_mapbucket_storage_map : Option Buf
  http_client_uprobe_storage_map : Option http_request_t
  events : List http_request_t
  tracked : Tracked

/-! ## uprobe_writeSubset (lines 366-422) -/

/-- The outcome of each fallible helper call of uprobe_writeSubset. -/
structure WriteSubsetOutcome where
  read_buf_ptr : Bool
  read_size : Bool
  read_len : Bool
  write_line : Bool
  write_n : Bool

/-- The bytes of the literal "Traceparent: ". -/
def traceparent_line_start : List Nat :=
  [84, 114, 97, 99, 101, 112, 97, 114, 101, 110, 116, 58, 32]

/-- The bytes of the literal "\r\n". -/
def crlf : List Nat := [13, 10]

/-- Modelled from the spec: offsetof(struct go_slice, cap); struct go_slice
(go_types.h, not among the sources) mirrors the slice header of the monitored
runtime: array pointer, length, capacity, 8 bytes each. -/
def go_slice_cap_offset : Nat := 16

/-- The local array tp_str of uprobe_writeSubset after lines 402-405. -/
def build_tp_str (tp : Buf) : Buf :=
  let tp_str := lit_buf traceparent_line_start
  let tp_str := buf_put tp_str (W3C_KEY_LENGTH + 2) W3C_VAL_LENGTH tp
  buf_put tp_str (W3C_KEY_LENGTH + 2 + W3C_VAL_LENGTH) 2 (lit_buf crlf)

/-- The body of uprobe_writeSubset up to the label done (lines 373-417): the
state when control reaches done. -/
def writeSubset_body (K : Offsets) (H : Helpers) (o : WriteSubsetOutcome)
    (headers_ptr io_writer_ptr : Nat) (s : State) : State :=
  match bpf_map_lookup_elem s.http_headers headers_ptr with
  | none => s
  | some key =>
    match bpf_map_lookup_elem s.http_events key with
    | none => s
    | some http_req_span =>
      let tp := H.span_context_to_w3c_string http_req_span.sc
      let buf_ptr :=
        bpf_probe_read_u64 o.read_buf_ptr s.mem (ptr_add io_writer_ptr K.io_writer_buf_ptr_pos)
      if buf_ptr = 0 then s
      else if ¬ o.read_size then s
      else
        let size := to_s64 (read_u64 s.mem
          (ptr_add (ptr_add io_writer_ptr K.io_writer_buf_ptr_pos) go_slice_cap_offset))
        if ¬ o.read_len then s
        else
          let len := to_s64 (read_u64 s.mem (ptr_add io_writer_ptr K.io_writer_n_pos))
          if len < wrap_s64 (wrap_s64 (wrap_s64 (size - W3C_VAL_LENGTH) - W3C_KEY_LENGTH) - 4) then
            let tp_str := build_tp_str tp
            if ¬ o.write_line then s
            else
              let m1 := write_mem s.mem (ptr_add buf_ptr (of_s64 len % 65536))
                (W3C_KEY_LENGTH + 2 + W3C_VAL_LENGTH + 2) tp_str
              let len1 := wrap_s64 (len + (W3C_KEY_LENGTH + 2 + W3C_VAL_LENGTH + 2 : Nat))
              if ¬ o.write_n then { s with mem := m1 }
              else
                let m2 := write_mem m1 (ptr_add io_writer_ptr K.io_writer_n_pos) 8
                  (le64 (of_s64 len1))
                { s with mem := m2 }
          else s

/-- The hook uprobe_writeSubset (compiled without NO_HEADER_PROPAGATION). -/
def uprobe_writeSubset (K : Offsets) (H : Helpers) (o : WriteSubsetOutcome)
    (ctx : pt_regs) (s : State) : State :=
  let headers_ptr := H.get_argument ctx s.mem 1
  let io_writer_ptr := H.get_argument ctx s.mem 3
  let s1 := writeSubset_body K H o headers_ptr io_writer_ptr s
  { s1 with http_headers := bpf_map_delete_elem s1.http_headers headers_ptr }

/-! ## uprobe_Transport_roundTrip_Returns (lines 335-360) -/

/-- The outcome of each fallible or non-deterministic helper call of the return
hook: the clock value bpf_ktime_get_ns returns and whether the read of the
status code succeeds. -/
structure ReturnsOutcome where
  ktime : Nat
  read_status_code : Bool

/-- The hook uprobe_Transport_roundTrip_Returns.  The record is updated through
the pointer into the map, handed to bpf_perf_event_output (one call, one entry
of the event list) and deleted. -/
def uprobe_Transport_roundTrip_Returns (K : Offsets) (H : Helpers) (o : ReturnsOutcome)
    (ctx : pt_regs) (s : State) : State :=
  let end_time := o.ktime
  let req_ctx_ptr := H.get_Go_context ctx s.mem 2 K.ctx_ptr_pos false
  let key := H.get_consistent_key ctx req_ctx_ptr
  match bpf_map_lookup_elem s.http_events key with
  | none => s
  | some http_req_span =>
    let http_req_span :=
      if H.is_register_abi then
        let resp_ptr := H.get_argument ctx s.mem 1
        let code :=
          bpf_probe_read_u64 o.read_status_code s.mem (ptr_add resp_ptr K.status_code_pos)
        { http_req_span with status_code := code }
      else http_req_span
    let http_req_span := { http_req_span with end_time := end_time }
    let stored := map_store s.http_events key http_req_span
    let events := s.events ++ [http_req_span]
    let tracked := H.stop_tracking_span s.tracked http_req_span.sc http_req_span.psc
    { s with http_events := bpf_map_delete_elem stored key, events := events,
             tracked := tracked }

/-! ## uprobe_Transport_roundTrip (lines 203-330) -/

/-- The outcome of each fallible or non-deterministic helper call of the entry
hook: the clock value, the bytes generate_random_bytes produces, the context
generate_span_context returns, and whether each unchecked pointer read
succeeds. -/
structure RoundTripOutcome where
  ktime : Nat
  random_bytes : Buf
  generated : span_context
  read_url_ptr : Bool
  read_user_ptr : Bool
  read_headers_ptr : Bool

/-- Modelled from the spec: copy_byte_arrays(src, dst, size) of a header that is
not among the sources: the first size bytes of dst become those of src (the
child inherits the trace identifier of its parent). -/
def copy_byte_arrays (src dst : Buf) (size : Nat) : Buf :=
  fun i => if i < size then src i else dst i

/-- Modelled from the spec: generate_random_bytes(buf, size) of a header that is
not among the sources: the first size bytes of buf become freshly generated
random bytes, here the bytes rnd of the outcome record. -/
def generate_random_bytes (rnd buf : Buf) (size : Nat) : Buf :=
  fun i => if i < size then rnd i else buf i

/-- Lines 232-239: the identifiers of the new record.  The parent context is a
value of one of the probe's own maps, so the copy of line 234 is a plain copy. -/
def set_span_contexts (o : RoundTripOutcome) (parent_span_ctx : Option span_context)
    (httpReq : http_request_t) : http_request_t :=
  match parent_span_ctx with
  | some parent =>
    let httpReq := { httpReq with psc := parent }
    let httpReq := { httpReq with sc := { httpReq.sc with
      TraceID := copy_byte_arrays httpReq.psc.TraceID httpReq.sc.TraceID TRACE_ID_SIZE } }
    { httpReq with sc := { httpReq.sc with
      SpanID := generate_random_bytes o.random_bytes httpReq.sc.SpanID SPAN_ID_SIZE } }
  | none => { httpReq with sc := o.generated }

/-- Lines 246-317: the best-effort fields of the record; a failed extraction is
only logged. -/
def read_optional_fields (K : Offsets) (H : Helpers) (o : RoundTripOutcome) (m : Mem)
    (req_ptr : Nat) (httpReq : http_request_t) : http_request_t :=
  let url_ptr := bpf_probe_read_u64 o.read_url_ptr m (ptr_add req_ptr K.url_ptr_pos)
  let httpReq := { httpReq with path := (H.get_go_string_from_user_ptr m
    (ptr_add url_ptr K.path_ptr_pos) httpReq.path MAX_PATH_SIZE).2 }
  let httpReq := { httpReq with scheme := (H.get_go_string_from_user_ptr m
    (ptr_add url_ptr K.scheme_pos) httpReq.scheme MAX_SCHEME_SIZE).2 }
  let httpReq := { httpReq with url_host := (H.get_go_string_from_user_ptr m
    (ptr_add url_ptr K.url_host_pos) httpReq.url_host MAX_URL_HOST_SIZE).2 }
  let httpReq := { httpReq with opaque_field := (H.get_go_string_from_user_ptr m
    (ptr_add url_ptr K.opaque_pos) httpReq.opaque_field MAX_OPAQUE_SIZE).2 }
  let httpReq := { httpReq with raw_path := (H.get_go_string_from_user_ptr m
    (ptr_add url_ptr K.raw_path_pos) httpReq.raw_path MAX_RAWPATH_SIZE).2 }
  let httpReq := { httpReq with raw_query := (H.get_go_string_from_user_ptr m
    (ptr_add url_ptr K.raw_query_pos) httpReq.raw_query MAX_RAWQUERY_SIZE).2 }
  let httpReq := { httpReq with fragment := (H.get_go_string_from_user_ptr m
    (ptr_add url_ptr K.fragment_pos) httpReq.fragment MAX_FRAGMENT_SIZE).2 }
  let httpReq := { httpReq with raw_fragment := (H.get_go_string_from_user_ptr m
    (ptr_add url_ptr K.raw_fragment_pos) httpReq.raw_fragment MAX_RAWFRAGMENT_SIZE).2 }
  let user_ptr := bpf_probe_read_u64 o.read_user_ptr m (ptr_add url_ptr K.user_ptr_pos)
  let httpReq := { httpReq with username := (H.get_go_string_from_user_ptr m
    (ptr_add user_ptr K.username_pos) httpReq.username MAX_USERNAME_SIZE).2 }
  let httpReq := { httpReq with host := (H.get_go_string_from_user_ptr m
    (ptr_add req_ptr K.request_host_pos) httpReq.host MAX_HOSTNAME_SIZE).2 }
  { httpReq with proto := (H.get_go_string_from_user_ptr m
    (ptr_add req_ptr K.request_proto_pos) httpReq.proto MAX_PROTO_SIZE).2 }

/-- The hook uprobe_Transport_roundTrip.  httpReq points into the per-CPU
scratch map, so what the hook stores in it stays there when the hook returns. -/
def uprobe_Transport_roundTrip (K : Offsets) (H : Helpers) (o : RoundTripOutcome)
    (ctx : pt_regs) (s : State) : State :=
  let req_ptr := H.get_argument ctx s.mem 2
  let context_ptr_val := H.get_Go_context ctx s.mem 2 K.ctx_ptr_pos false
  if context_ptr_val = 0 then s
  else
    let key := H.get_consistent_key ctx context_ptr_val
    match bpf_map_lookup_elem s.http_events key with
    | some _ => s
    | none =>
      match s.http_client_uprobe_storage_map with
      | none => s
      | some _ =>
        let httpReq := zero_http_request
        let httpReq := { httpReq with start_time := o.ktime }
        let parent_span_ctx := H.get_parent_span_context s.tracked s.mem context_ptr_val
        let httpReq := set_span_contexts o parent_span_ctx httpReq
        let got := H.get_go_string_from_user_ptr s.mem (ptr_add req_ptr K.method_ptr_pos)
          httpReq.method MAX_METHOD_SIZE
        let httpReq := { httpReq with method := got.2 }
        if ¬ got.1 then { s with http_client_uprobe_storage_map := some httpReq }
        else
          let httpReq := read_optional_fields K H o s.mem req_ptr httpReq
          let headers_ptr :=
            bpf_probe_read_u64 o.read_headers_ptr s.mem (ptr_add req_ptr K.headers_ptr_pos)
          let http_headers :=
            if headers_ptr ≠ 0 then lru_map_update_elem MAX_CONCURRENT s.http_headers headers_ptr key
            else s.http_headers
          let http_events := bpf_map_update_elem MAX_CONCURRENT s.http_events key httpReq
          let tracked := H.start_tracking_span s.tracked context_ptr_val httpReq.sc
          { s with http_headers := http_headers, http_events := http_events,
                   tracked := tracked, http_client_uprobe_storage_map := some httpReq }

/-! ## inject_header (lines 99-198) -/

/-- Modelled from the spec: sizeof(struct map_bucket).  struct map_bucket,
struct go_string and struct go_slice are declared in go_types.h, which is not
among the sources.  The bucket mirrors the storage block of the foreign
associative array: 8 type tags (one byte each), 8 key descriptors (pointer,
length), 8 value descriptors (pointer, length, capacity) and the overflow
pointer. -/
def sizeof_map_bucket : Nat := 336

/-- The offset of tophash[i] in struct map_bucket. -/
def tophash_offset (i : Nat) : Nat := i

/-- The offset of keys[i] in struct map_bucket. -/
def keys_offset (i : Nat) : Nat := 8 + 16 * i

/-- The offset of values[i] in struct map_bucket. -/
def values_offset (i : Nat) : Nat := 136 + 24 * i

/-- The 16 bytes of a struct go_string: the pointer, then the length. -/
def go_string_bytes (str : Nat) (len : Nat) : Buf :=
  buf_put (buf_put zero_buf 0 8 (le64 str)) 8 8 (le64 len)

/-- The 24 bytes of a struct go_slice: the pointer, the length, the capacity. -/
def go_slice_bytes (array : Nat) (len cap : Nat) : Buf :=
  buf_put (buf_put (buf_put zero_buf 0 8 (le64 array)) 8 8 (le64 len)) 16 8 (le64 cap)

/-- The bytes of the literal "traceparent". -/
def traceparent_key : List Nat := [116, 114, 97, 99, 101, 112, 97, 114, 101, 110, 116]

/-- The sentinel type tag, char traceparent_tophash = 0xee. -/
def traceparent_tophash : Nat := 238

/-- The outcome of each fallible helper call of inject_header, one field per
call site: whether the read or write succeeds, and for each write_target_data
call the address it returns (0 is NULL, the failure). -/
structure InjectOutcome where
  read_count : Bool
  alloc_bucket : Nat
  write_buckets_ptr : Bool
  read_buckets_ptr : Bool
  read_bucket : Bool
  alloc_key : Nat
  alloc_val : Nat
  alloc_go_string : Nat
  write_count : Bool
  write_bucket : Bool

/-- Modelled from the spec: write_target_data(data, size) of a header that is
not among the sources: it allocates size bytes of foreign memory, writes data
into them and returns their address; on failure it returns NULL and writes
nothing.  The address comes from the outcome record. -/
def write_target_data (target : Nat) (s : State) (data : Buf) (size : Nat) : Nat × State :=
  if target = 0 then (0, s)
  else (target, { s with mem := write_mem s.mem target size data,
                         allocated := s.allocated ++ [(target, size)] })

/-- Modelled from the spec: bpf_memset(dst, size, 0) of a header that is not
among the sources: the scratch block is cleared. -/
def bpf_memset (dst : Buf) (size : Nat) (value : Nat) : Buf :=
  fun i => if i < size then value else dst i

/-- A return of inject_header: the code, and the state with the scratch block
as the function leaves it (bucket_map_value points into the per-CPU map). -/
def inject_return (code : Int) (bucket_map_value : Buf) (s : State) : Int × State :=
  (code, { s with golang_mapbucket_storage_map := some bucket_map_value })

/-- Lines 146-197 of inject_header: the new entry is staged in the scratch
block, its strings are written to the target, then the count and the block. -/
def inject_header_entry (H : Helpers) (o : InjectOutcome) (headers_ptr : Nat)
    (propagated_ctx : span_context) (curr_keyvalue_count : Nat) (bucket_ptr : Nat)
    (bucket_map_value : Buf) (s : State) : Int × State :=
  let bucket_index := curr_keyvalue_count % 8
  let bucket_map_value :=
    buf_put bucket_map_value (tophash_offset bucket_index) 1 (lit_buf [traceparent_tophash])
  let key := lit_buf traceparent_key
  let r := write_target_data o.alloc_key s key W3C_KEY_LENGTH
  if r.1 = 0 then inject_return (-1) bucket_map_value r.2
  else
    let bucket_map_value :=
      buf_put bucket_map_value (keys_offset bucket_index) 16 (go_string_bytes r.1 W3C_KEY_LENGTH)
    let val := H.span_context_to_w3c_string propagated_ctx
    let r := write_target_data o.alloc_val r.2 val W3C_VAL_LENGTH
    if r.1 = 0 then inject_return (-1) bucket_map_value r.2
    else
      let header_value := go_string_bytes r.1 W3C_VAL_LENGTH
      let r := write_target_data o.alloc_go_string r.2 header_value 16
      if r.1 = 0 then inject_return (-1) bucket_map_value r.2
      else
        let bucket_map_value :=
          buf_put bucket_map_value (values_offset bucket_index) 24 (go_slice_bytes r.1 1 1)
        let s := r.2
        let curr_keyvalue_count := (curr_keyvalue_count + 1) % 18446744073709551616
        if ¬ o.write_count then inject_return (-1) bucket_map_value s
        else
          let s := { s with mem := write_mem s.mem headers_ptr 8 (le64 curr_keyvalue_count) }
          if ¬ o.write_bucket then inject_return (-1) bucket_map_value s
          else
            let s := { s with mem := write_mem s.mem bucket_ptr sizeof_map_bucket bucket_map_value }
            inject_return 0 (bpf_memset bucket_map_value sizeof_map_bucket 0) s

/-- The function inject_header: the return code and the state it leaves. -/
def inject_header (K : Offsets) (H : Helpers) (o : InjectOutcome) (headers_ptr : Nat)
    (propagated_ctx : span_context) (s : State) : Int × State :=
  if ¬ o.read_count then (-1, s)
  else
    let curr_keyvalue_count := read_u64 s.mem headers_ptr
    if curr_keyvalue_count ≥ 8 then (-1, s)
    else
      match s.golang_mapbucket_storage_map with
      | none => (-1, s)
      | some bucket_map_value =>
        let buckets_ptr_ptr := ptr_add headers_ptr K.buckets_ptr_pos
        if curr_keyvalue_count = 0 then
          let r := write_target_data o.alloc_bucket s bucket_map_value sizeof_map_bucket
          let bucket_ptr := r.1
          if bucket_ptr = 0 then (-1, r.2)
          else if ¬ o.write_buckets_ptr then (-1, r.2)
          else
            let s := { r.2 with mem := write_mem r.2.mem buckets_ptr_ptr 8 (le64 bucket_ptr) }
            inject_header_entry H o headers_ptr propagated_ctx curr_keyvalue_count bucket_ptr
              bucket_map_value s
        else
          let bucket_ptr := bpf_probe_read_u64 o.read_buckets_ptr s.mem buckets_ptr_ptr
          let bucket_map_value :=
            bpf_probe_read_buf o.read_bucket s.mem bucket_ptr sizeof_map_bucket
          inject_header_entry H o headers_ptr propagated_ctx curr_keyvalue_count bucket_ptr
            bucket_map_value s

/-! ## Observations used to state the properties -/

/-- The capacity field of the writer's buffer (a signed 64-bit value), where
uprobe_writeSubset reads it. -/
def writer_capacity (K : Offsets) (H : Helpers) (ctx : pt_regs) (s : State) : Int :=
  to_s64 (read_u64 s.mem
    (ptr_add (ptr_add (H.get_argument ctx s.mem 3) K.io_writer_buf_ptr_pos) go_slice_cap_offset))

/-- The cursor field of the writer (the length already written, a signed 64-bit
value), where uprobe_writeSubset reads it. -/
def writer_cursor (K : Offsets) (H : Helpers) (ctx : pt_regs) (s : State) : Int :=
  to_s64 (read_u64 s.mem (ptr_add (H.get_argument ctx s.mem 3) K.io_writer_n_pos))

/-- The address of the cursor field of the writer. -/
def writer_cursor_addr (K : Offsets) (H : Helpers) (ctx : pt_regs) (s : State) : Nat :=
  ptr_add (H.get_argument ctx s.mem 3) K.io_writer_n_pos

/-- The base pointer of the writer's buffer, where uprobe_writeSubset reads it. -/
def writer_base (K : Offsets) (H : Helpers) (ctx : pt_regs) (s : State) : Nat :=
  read_u64 s.mem (ptr_add (H.get_argument ctx s.mem 3) K.io_writer_buf_ptr_pos)

/-- The injected header line as the specification words it: "Traceparent: ",
then the W3C_VAL_LENGTH bytes of the propagation string, then "\r\n". -/
def header_line (tp : Buf) : List Nat :=
  "Traceparent: ".toList.map Char.toNat ++ (List.range W3C_VAL_LENGTH).map tp
    ++ "\r\n".toList.map Char.toNat

/-- The memory after the header line for the propagation string tp has been
stored at base plus the cursor masked to its low 16 bits. -/
def mem_with_line (m : Mem) (base : Nat) (cursor : Int) (tp : Buf) : Mem :=
  write_mem m (ptr_add base (of_s64 cursor % 65536)) (header_line tp).length
    (lit_buf (header_line tp))

/-- The correlation key of a call: what both hooks of the call compute from its
context (lines 208-213 and 337-338). -/
def correlation_key (K : Offsets) (H : Helpers) (ctx : pt_regs) (s : State) : Nat :=
  H.get_consistent_key ctx (H.get_Go_context ctx s.mem 2 K.ctx_ptr_pos false)

/-- The event of a return transition as the specification words it: the stored
record with end_time set to the time stamped at hook entry, and status_code set
from the response only under the register-based return convention. -/
def finished_record (K : Offsets) (H : Helpers) (o : ReturnsOutcome) (ctx : pt_regs)
    (s : State) (r : http_request_t) : http_request_t :=
  { r with
    end_time := o.ktime,
    status_code :=
      if H.is_register_abi then
        bpf_probe_read_u64 o.read_status_code s.mem
          (ptr_add (H.get_argument ctx s.mem 1) K.status_code_pos)
      else r.status_code }

/-- The entry count of the foreign associative array, the first field of its
header. -/
def map_count (m : Mem) (headers_ptr : Nat) : Nat := read_u64 m headers_ptr

/-- The block-pointer field of the header of the foreign associative array. -/
def map_buckets (K : Offsets) (m : Mem) (headers_ptr : Nat) : Nat :=
  read_u64 m (ptr_add headers_ptr K.buckets_ptr_pos)

/-- The sizeof_map_bucket bytes at p are those of b. -/
def block_is (m : Mem) (p : Nat) (b : Buf) : Prop :=
  ∀ i, i < sizeof_map_bucket → m (p + i) = b i

/-- The byte ranges [a, a + n) and [b, b + k) do not overlap. -/
def ranges_disjoint (a n b k : Nat) : Prop := a + n ≤ b ∨ b + k ≤ a

/-- The range a write_target_data call fills: size bytes at the address it
returns, nothing when it returns NULL. -/
def alloc_range (p size : Nat) : Nat × Nat := (p, if p = 0 then 0 else size)

/-- The ranges of foreign memory one call of inject_header may write: the count
field and the block-pointer field of the header, and the four allocations. -/
def injection_ranges (K : Offsets) (o : InjectOutcome) (headers_ptr : Nat) : List (Nat × Nat) :=
  [(headers_ptr, 8), (ptr_add headers_ptr K.buckets_ptr_pos, 8),
   alloc_range o.alloc_bucket sizeof_map_bucket, alloc_range o.alloc_key W3C_KEY_LENGTH,
   alloc_range o.alloc_val W3C_VAL_LENGTH, alloc_range o.alloc_go_string 16]

/-- The allocator returns fresh memory: the allocations of the call overlap
neither each other nor the two header fields, and every address it returns is a
64-bit value. -/
def fresh_allocations (K : Offsets) (o : InjectOutcome) (headers_ptr : Nat) : Prop :=
  (injection_ranges K o headers_ptr).Pairwise
      (fun a b => ranges_disjoint a.1 a.2 b.1 b.2) ∧
  o.alloc_bucket < 18446744073709551616 ∧ o.alloc_key < 18446744073709551616 ∧
  o.alloc_val < 18446744073709551616 ∧ o.alloc_go_string < 18446744073709551616

/-- The storage block an array with entries already has lies apart from the
header fields and from the allocations of the call. -/
def existing_block_apart (K : Offsets) (o : InjectOutcome) (headers_ptr : Nat) (m : Mem) : Prop :=
  ∀ a ∈ [(headers_ptr, 8), (ptr_add headers_ptr K.buckets_ptr_pos, 8),
      alloc_range o.alloc_key W3C_KEY_LENGTH, alloc_range o.alloc_val W3C_VAL_LENGTH,
      alloc_range o.alloc_go_string 16],
    ranges_disjoint (map_buckets K m headers_ptr) sizeof_map_bucket a.1 a.2

/-- A staged block with the new entry in a slot: the sentinel type tag, the key
descriptor (length W3C_KEY_LENGTH) and the value descriptor (a sequence of
length 1 and capacity 1). -/
def with_entry (b : Buf) (slot key_ptr value_ptr : Nat) : Buf :=
  buf_put
    (buf_put
      (buf_put b (tophash_offset slot) 1 (lit_buf [traceparent_tophash]))
      (keys_offset slot) 16 (go_string_bytes key_ptr W3C_KEY_LENGTH))
    (values_offset slot) 24 (go_slice_bytes value_ptr 1 1)

/-- The block the new entry is staged on: the scratch block for an empty array,
the bytes of the existing block otherwise. -/
def base_block (K : Offsets) (headers_ptr : Nat) (s : State) : Buf :=
  if map_count s.mem headers_ptr = 0 then
    match s.golang_mapbucket_storage_map with
    | some b => b
    | none => zero_buf
  else read_mem s.mem (map_buckets K s.mem headers_ptr) sizeof_map_bucket

/-- The array is as before the call: count, block pointer and, when it has
entries, the bytes of its block. -/
def array_untouched (K : Offsets) (headers_ptr : Nat) (m m2 : Mem) : Prop :=
  map_count m2 headers_ptr = map_count m headers_ptr ∧
  map_buckets K m2 headers_ptr = map_buckets K m headers_ptr ∧
  (0 < map_count m headers_ptr →
    block_is m2 (map_buckets K m headers_ptr)
      (read_mem m (map_buckets K m headers_ptr) sizeof_map_bucket))

/-- The array is fully updated: the count is one more than before and the block
the header points at holds the new entry in slot count mod 8. -/
def array_fully_updated (K : Offsets) (headers_ptr : Nat) (m m2 : Mem) : Prop :=
  map_count m2 headers_ptr = map_count m headers_ptr + 1 ∧
  ∃ base key_ptr value_ptr,
    block_is m2 (map_buckets K m2 headers_ptr)
      (with_entry base (map_count m headers_ptr % 8) key_ptr value_ptr)

/-- Intermediate state of an injection into an empty array: the block pointer
references the newly allocated block while the count is still 0. -/
def array_pointer_patched (K : Offsets) (o : InjectOutcome) (headers_ptr : Nat)
    (m m2 : Mem) : Prop :=
  map_count m headers_ptr = 0 ∧ map_count m2 headers_ptr = 0 ∧
  map_buckets K m2 headers_ptr = o.alloc_bucket ∧ o.alloc_bucket ≠ 0

/-- Intermediate state: the count is one more than before while the block the
header points at is still the base block, without the new entry. -/
def array_count_only (K : Offsets) (headers_ptr : Nat) (s : State) (m2 : Mem) : Prop :=
  map_count m2 headers_ptr = map_count s.mem headers_ptr + 1 ∧
  block_is m2 (map_buckets K m2 headers_ptr) (base_block K headers_ptr s)

/-- The fully updated array of this call: the count is one more than before, an
array that had a block keeps its block pointer, an empty one points at the new
block, and the block is the base block with the new entry of the call. -/
def array_updated_by (K : Offsets) (o : InjectOutcome) (headers_ptr : Nat) (s : State)
    (m2 : Mem) : Prop :=
  map_count m2 headers_ptr = map_count s.mem headers_ptr + 1 ∧
  map_buckets K m2 headers_ptr
    = (if map_count s.mem headers_ptr = 0 then o.alloc_bucket
       else map_buckets K s.mem headers_ptr) ∧
  block_is m2 (map_buckets K m2 headers_ptr)
    (with_entry (base_block K headers_ptr s) (map_count s.mem headers_ptr % 8)
      o.alloc_key o.alloc_go_string)

/-- The memory m2 equals m at every address outside the listed ranges. -/
def agrees_outside (m m2 : Mem) (ranges : List (Nat × Nat)) : Prop :=
  ∀ x, (∀ r ∈ ranges, x < r.1 ∨ r.1 + r.2 ≤ x) → m2 x = m x

/-- The ranges of the three string allocations of inject_header (key, value,
value descriptor). -/
def string_ranges (o : InjectOutcome) : List (Nat × Nat) :=
  [alloc_range o.alloc_key W3C_KEY_LENGTH, alloc_range o.alloc_val W3C_VAL_LENGTH,
   alloc_range o.alloc_go_string 16]

/-- The memory after the three string allocations of inject_header succeeded:
the key, the propagation string and the descriptor of the latter are stored at
the addresses the allocator returned. -/
def mem_with_strings (H : Helpers) (o : InjectOutcome) (propagated_ctx : span_context)
    (m : Mem) : Mem :=
  write_mem
    (write_mem
      (write_mem m o.alloc_key W3C_KEY_LENGTH (lit_buf traceparent_key))
      o.alloc_val W3C_VAL_LENGTH (H.span_context_to_w3c_string propagated_ctx))
    o.alloc_go_string 16 (go_string_bytes o.alloc_val W3C_VAL_LENGTH)

instance (a n b k : Nat) : Decidable (ranges_disjoint a n b k) := by
  unfold ranges_disjoint
  infer_instance

/-! ## Concrete inputs

A small world on which the hooks are run: a register-based target whose request
object lives at 16384, whose header container is at 4096 and whose writer is at
8192.  The helpers are simple stand-ins with the behaviour the specification
gives the collaborators. -/

/-- Offsets as in a build of the monitored runtime. -/
def demo_offsets : Offsets :=
  { method_ptr_pos := 0, url_ptr_pos := 16, path_ptr_pos := 56, headers_ptr_pos := 56,
    ctx_ptr_pos := 232, buckets_ptr_pos := 16, status_code_pos := 16,
    request_host_pos := 128, request_proto_pos := 24, scheme_pos := 0, url_host_pos := 40,
    opaque_pos := 16, user_ptr_pos := 32, raw_path_pos := 72, omit_host_pos := 88,
    force_query_pos := 89, raw_query_pos := 96, fragment_pos := 112, raw_fragment_pos := 128,
    username_pos := 0, io_writer_buf_ptr_pos := 16, io_writer_n_pos := 40 }

/-- The registers of the call: argument 1 is the header container, argument 2
the request, argument 3 the writer. -/
def demo_regs : pt_regs :=
  { reg := fun n => if n = 1 then 4096 else if n = 2 then 16384 else if n = 3 then 8192 else 0 }

/-- A hexadecimal digit as an ASCII byte. -/
def hex_digit (n : Nat) : Nat := if n < 10 then 48 + n else 87 + n

/-- A rendering of a span context as version-traceid-spanid-flags, 55 bytes. -/
def demo_w3c (sc : span_context) : Buf := fun i =>
  if i < 2 then 48
  else if i = 2 then 45
  else if i < 35 then
    (if (i - 3) % 2 = 0 then hex_digit (sc.TraceID ((i - 3) / 2) / 16 % 16)
     else hex_digit (sc.TraceID ((i - 3) / 2) % 16))
  else if i = 35 then 45
  else if i < 52 then
    (if (i - 36) % 2 = 0 then hex_digit (sc.SpanID ((i - 36) / 2) / 16 % 16)
     else hex_digit (sc.SpanID ((i - 36) / 2) % 16))
  else if i = 52 then 45
  else if i = 53 then 48
  else if i = 54 then 49
  else 0

/-- Stand-ins for the helpers of the headers that are not among the sources. -/
def demo_helpers : Helpers :=
  { get_argument := fun ctx _ n => ctx.reg n,
    get_Go_context := fun ctx m i off _ => read_u64 m (ptr_add (ctx.reg i) off),
    get_consistent_key := fun _ c => c,
    get_parent_span_context := fun tr _ c => bpf_map_lookup_elem tr c,
    get_go_string_from_user_ptr := fun m p dst max =>
      if p = 0 then (false, dst)
      else if to_s64 (read_u64 m (p + 8)) < 1 then (false, dst)
      else (true, buf_put dst 0 (min (read_u64 m (p + 8)) max)
        (read_mem m (read_u64 m p) (min (read_u64 m (p + 8)) max))),
    span_context_to_w3c_string := demo_w3c,
    start_tracking_span := fun tr c sc => (c, sc) :: tr,
    stop_tracking_span := fun tr _ _ => tr.tail,
    is_register_abi := true }

/-- A span context with trace identifier bytes 1, 2, .. and span identifier
bytes 161, 162, ... -/
def demo_span_context : span_context :=
  { TraceID := fun i => if i < 16 then i + 1 else 0,
    SpanID := fun i => if i < 8 then 161 + i else 0,
    TraceFlags := 1 }

/-- A record of an in-flight call. -/
def demo_record : http_request_t :=
  { zero_http_request with start_time := 1000, sc := demo_span_context }

/-- The memory of the monitored process: the request at 16384 with method "GET"
(bytes at 28672) and context pointer 24576, the writer at 8192 with its buffer at
12288 (capacity 100, cursor 50), and the header container at 4096, an empty
associative array. -/
def demo_mem : Mem :=
  write_mem
    (write_mem
      (write_mem
        (write_mem
          (write_mem
            (write_mem
              (write_mem (fun _ => 0) 16384 8 (le64 28672))
              16392 8 (le64 3))
            28672 3 (lit_buf [71, 69, 84]))
          16616 8 (le64 24576))
        8208 8 (le64 12288))
      8224 8 (le64 100))
    8232 8 (le64 50)

/-- A state in which the call with context 24576 is in flight and its header
container 4096 is bound to it. -/
def demo_state : State :=
  { mem := demo_mem, allocated := [],
    http_events := [(24576, demo_record)], http_headers := [(4096, 24576)],
    golang_mapbucket_storage_map := some zero_buf,
    http_client_uprobe_storage_map := some zero_http_request,
    events := [], tracked := [] }

/-- A state in which no call is in flight and a parent span is registered for
the context 24576. -/
def demo_idle_state : State :=
  { demo_state with http_events := [], http_headers := [],
                    tracked := [(24576, demo_span_context)] }

/-- The memory of demo_mem with a larger buffer: capacity 4096, cursor 50. -/
def demo_roomy_state : State :=
  { demo_state with mem := write_mem demo_mem 8224 8 (le64 4096) }

/-- Every helper call of uprobe_writeSubset succeeds. -/
def demo_write_ok : WriteSubsetOutcome :=
  { read_buf_ptr := true, read_size := true, read_len := true, write_line := true,
    write_n := true }

/-- The outcome of the helper calls of the return hook. -/
def demo_returns_outcome : ReturnsOutcome := { ktime := 2000, read_status_code := false }

/-- The outcome of the helper calls of the entry hook. -/
def demo_roundTrip_outcome : RoundTripOutcome :=
  { ktime := 1500, random_bytes := fun i => 200 + i, generated := zero_span_context,
    read_url_ptr := false, read_user_ptr := false, read_headers_ptr := false }

/-- Every helper call of inject_header succeeds; the allocator returns 32768,
33280, 33792 and 34304. -/
def demo_inject_ok : InjectOutcome :=
  { read_count := true, alloc_bucket := 32768, write_buckets_ptr := true,
    read_buckets_ptr := true, read_bucket := true, alloc_key := 33280, alloc_val := 33792,
    alloc_go_string := 34304, write_count := true, write_bucket := true }

/-- The block is allocated and the block pointer patched, then the allocation
of the key fails. -/
def demo_inject_key_fails : InjectOutcome := { demo_inject_ok with alloc_key := 0 }

/-- Everything succeeds up to and including the write of the count; the write
of the block then fails. -/
def demo_inject_block_write_fails : InjectOutcome := { demo_inject_ok with write_bucket := false }

/-- The memory of a header container at 4096 that holds one entry in its block
at 12288 (type tag 7 in slot 0). -/
def demo_one_entry_mem : Mem :=
  write_mem
    (write_mem (write_mem (fun _ => 0) 4096 8 (le64 1)) 4112 8 (le64 12288))
    12288 1 (lit_buf [7])

/-- A state whose header container at 4096 holds one entry. -/
def demo_one_entry_state : State := { demo_state with mem := demo_one_entry_mem }

/-- The read of the block pointer fails (and with it the read through the NULL
pointer and the write of the block to it); everything else succeeds. -/
def demo_inject_ptr_read_fails : InjectOutcome :=
  { demo_inject_ok with read_buckets_ptr := false, read_bucket := false,
                        write_bucket := false }

/-- Only the read of the existing block fails. -/
def demo_inject_block_read_fails : InjectOutcome := { demo_inject_ok with read_bucket := false }

/-- The memory of a header container at 4096 whose count field holds 8. -/
def demo_full_mem : Mem := write_mem (fun _ => 0) 4096 8 (le64 8)

/-- A state whose header container at 4096 is full. -/
def demo_full_state : State := { demo_state with mem := demo_full_mem }

/-- The record the entry hook publishes on demo_idle_state. -/
def demo_published : http_request_t :=
  (bpf_map_lookup_elem
    (uprobe_Transport_roundTrip demo_offsets demo_helpers demo_roundTrip_outcome demo_regs
      demo_idle_state).http_events 24576).getD zero_http_request

/-! ## Lemmas on maps, integers and memory -/

theorem lookup_delete_self {V : Type} (m : List (Nat × V)) (k : Nat) :
    bpf_map_lookup_elem (bpf_map_delete_elem m k) k = none := by
  induction m with
  | nil => rfl
  | cons e rest ih =>
    obtain ⟨a, v⟩ := e
    by_cases h : a = k
    · simp [bpf_map_delete_elem, h, ih]
    · simp [bpf_map_delete_elem, bpf_map_lookup_elem, h, ih]

theorem lookup_delete_other {V : Type} (m : List (Nat × V)) (k k2 : Nat) (hne : k2 ≠ k) :
    bpf_map_lookup_elem (bpf_map_delete_elem m k) k2 = bpf_map_lookup_elem m k2 := by
  induction m with
  | nil => rfl
  | cons e rest ih =>
    obtain ⟨a, v⟩ := e
    by_cases h : a = k
    · have h3 : ¬ k = k2 := fun h2 => hne h2.symm
      simp [bpf_map_delete_elem, bpf_map_lookup_elem, h, ih, h3]
    · by_cases h2 : a = k2
      · subst h2
        simp [bpf_map_delete_elem, bpf_map_lookup_elem, h]
      · simp [bpf_map_delete_elem, bpf_map_lookup_elem, h, h2, ih]

theorem read_u64_lt (m : Mem) (p : Nat) : read_u64 m p < 18446744073709551616 := by
  unfold read_u64
  omega

theorem to_s64_range (u : Nat) (h : u < 18446744073709551616) :
    -9223372036854775808 ≤ to_s64 u ∧ to_s64 u < 9223372036854775808 := by
  unfold to_s64
  split <;> omega

theorem write_mem_congr (m : Mem) (p : Nat) (n : Nat) (d1 d2 : Buf)
    (h : ∀ i, i < n → d1 i = d2 i) : write_mem m p n d1 = write_mem m p n d2 := by
  funext x
  unfold write_mem
  by_cases hx : p ≤ x ∧ x < p + n
  · rw [if_pos hx, if_pos hx]
    apply h; omega
  · rw [if_neg hx, if_neg hx]

/-! ## uprobe_writeSubset -/

theorem header_line_length (tp : Buf) :
    (header_line tp).length = W3C_KEY_LENGTH + 2 + W3C_VAL_LENGTH + 2 := by
  simp [header_line, W3C_KEY_LENGTH, W3C_VAL_LENGTH]

theorem line_start_eq : "Traceparent: ".toList.map Char.toNat = traceparent_line_start := by
  decide

theorem crlf_eq : "\r\n".toList.map Char.toNat = crlf := by
  decide

theorem build_tp_str_eq (tp : Buf) (i : Nat) (hi : i < 70) :
    build_tp_str tp i = lit_buf (header_line tp) i := by
  unfold build_tp_str header_line lit_buf buf_put
  rw [line_start_eq, crlf_eq]
  simp only [W3C_KEY_LENGTH, W3C_VAL_LENGTH]
  by_cases h1 : i < 13
  · have e1 : ¬ (11 + 2 + 55 ≤ i ∧ i < 11 + 2 + 55 + 2) := by omega
    have e2 : ¬ (11 + 2 ≤ i ∧ i < 11 + 2 + 55) := by omega
    simp only [e1, e2, if_false]
    rw [List.append_assoc, List.getD_append _ _ _ _ (by simpa [traceparent_line_start] using h1)]
  · by_cases h2 : i < 68
    · have e1 : ¬ (11 + 2 + 55 ≤ i ∧ i < 11 + 2 + 55 + 2) := by omega
      have e2 : (11 + 2 ≤ i ∧ i < 11 + 2 + 55) := by omega
      simp only [e1, e2, if_false, if_true]
      rw [List.append_assoc, List.getD_append_right _ _ _ _ (by simp [traceparent_line_start]; omega)]
      rw [List.getD_append _ _ _ _ (by simp [traceparent_line_start]; omega)]
      simp [traceparent_line_start, List.getD_eq_getElem?_getD]
      have : i - 13 < 55 := by omega
      simp [List.getElem?_map, List.getElem?_range this]
    · have e1 : (11 + 2 + 55 ≤ i ∧ i < 11 + 2 + 55 + 2) := by omega
      simp only [e1, if_true]
      rw [List.getD_append_right _ _ _ _ (by simp [traceparent_line_start]; omega)]
      simp [traceparent_line_start]

theorem writeSubset_body_headers (K : Offsets) (H : Helpers) (o : WriteSubsetOutcome)
    (hp wp : Nat) (s : State) :
    (writeSubset_body K H o hp wp s).http_headers = s.http_headers := by
  unfold writeSubset_body
  cases bpf_map_lookup_elem s.http_headers hp with
  | none => rfl
  | some key =>
    dsimp only
    cases bpf_map_lookup_elem s.http_events key with
    | none => rfl
    | some r =>
      dsimp only
      split_ifs <;> rfl

theorem writeSubset_body_no_room (K : Offsets) (H : Helpers) (o : WriteSubsetOutcome)
    (hp wp : Nat) (s : State)
    (hcap : 0 ≤ to_s64 (read_u64 s.mem
      (ptr_add (ptr_add wp K.io_writer_buf_ptr_pos) go_slice_cap_offset)))
    (hroom : to_s64 (read_u64 s.mem
        (ptr_add (ptr_add wp K.io_writer_buf_ptr_pos) go_slice_cap_offset))
      - to_s64 (read_u64 s.mem (ptr_add wp K.io_writer_n_pos))
      < ((W3C_KEY_LENGTH + 2 + W3C_VAL_LENGTH + 2 : Nat) : Int)) :
    writeSubset_body K H o hp wp s = s := by
  have hb := to_s64_range _ (read_u64_lt s.mem
      (ptr_add (ptr_add wp K.io_writer_buf_ptr_pos) go_slice_cap_offset))
  unfold writeSubset_body
  cases bpf_map_lookup_elem s.http_headers hp with
  | none => rfl
  | some key =>
    dsimp only
    cases bpf_map_lookup_elem s.http_events key with
    | none => rfl
    | some r =>
      dsimp only
      have hno : ¬ (to_s64 (read_u64 s.mem (ptr_add wp K.io_writer_n_pos))
          < wrap_s64 (wrap_s64 (wrap_s64 (to_s64 (read_u64 s.mem
              (ptr_add (ptr_add wp K.io_writer_buf_ptr_pos) go_slice_cap_offset))
            - W3C_VAL_LENGTH) - W3C_KEY_LENGTH) - 4)) := by
        simp only [wrap_s64, W3C_VAL_LENGTH, W3C_KEY_LENGTH] at *
        omega
      simp only [hno, if_false, ite_self]

theorem tp_str_written (m : Mem) (p : Nat) (tp : Buf) :
    write_mem m p (W3C_KEY_LENGTH + 2 + W3C_VAL_LENGTH + 2) (build_tp_str tp)
      = write_mem m p (header_line tp).length (lit_buf (header_line tp)) := by
  rw [header_line_length]
  apply write_mem_congr
  intro i hi
  apply build_tp_str_eq
  simp only [W3C_VAL_LENGTH, W3C_KEY_LENGTH] at hi
  omega

/-- The memory uprobe_writeSubset leaves: the memory before, or the memory with
the header line stored, or that with the advanced cursor stored as well. -/
theorem writeSubset_body_mem (K : Offsets) (H : Helpers) (o : WriteSubsetOutcome)
    (hp wp : Nat) (s : State) :
    (writeSubset_body K H o hp wp s).mem = s.mem ∨
    ∃ key r,
      bpf_map_lookup_elem s.http_headers hp = some key ∧
      bpf_map_lookup_elem s.http_events key = some r ∧
      (0 ≤ to_s64 (read_u64 s.mem
            (ptr_add (ptr_add wp K.io_writer_buf_ptr_pos) go_slice_cap_offset)) →
        to_s64 (read_u64 s.mem (ptr_add wp K.io_writer_n_pos)) + 70
          < to_s64 (read_u64 s.mem
              (ptr_add (ptr_add wp K.io_writer_buf_ptr_pos) go_slice_cap_offset))) ∧
      ((writeSubset_body K H o hp wp s).mem
          = mem_with_line s.mem (read_u64 s.mem (ptr_add wp K.io_writer_buf_ptr_pos))
              (to_s64 (read_u64 s.mem (ptr_add wp K.io_writer_n_pos)))
              (H.span_context_to_w3c_string r.sc) ∨
       (writeSubset_body K H o hp wp s).mem
          = write_mem (mem_with_line s.mem (read_u64 s.mem (ptr_add wp K.io_writer_buf_ptr_pos))
              (to_s64 (read_u64 s.mem (ptr_add wp K.io_writer_n_pos)))
              (H.span_context_to_w3c_string r.sc))
            (ptr_add wp K.io_writer_n_pos) 8
            (le64 (of_s64 (to_s64 (read_u64 s.mem (ptr_add wp K.io_writer_n_pos)) + 70)))) := by
  have hb := to_s64_range _ (read_u64_lt s.mem
      (ptr_add (ptr_add wp K.io_writer_buf_ptr_pos) go_slice_cap_offset))
  have hc := to_s64_range _ (read_u64_lt s.mem (ptr_add wp K.io_writer_n_pos))
  unfold writeSubset_body
  cases h1 : bpf_map_lookup_elem s.http_headers hp with
  | none => left; rfl
  | some key =>
    dsimp only
    cases h2 : bpf_map_lookup_elem s.http_events key with
    | none => left; rfl
    | some r =>
      dsimp only
      by_cases hbuf : bpf_probe_read_u64 o.read_buf_ptr s.mem (ptr_add wp K.io_writer_buf_ptr_pos) = 0
      · left; rw [if_pos hbuf]
      · rw [if_neg hbuf]
        have hrd : o.read_buf_ptr = true := by
          by_contra hx
          apply hbuf
          simp [bpf_probe_read_u64, hx]
        have hbase : bpf_probe_read_u64 o.read_buf_ptr s.mem (ptr_add wp K.io_writer_buf_ptr_pos)
            = read_u64 s.mem (ptr_add wp K.io_writer_buf_ptr_pos) := by
          simp [bpf_probe_read_u64, hrd]
        rw [hbase]
        split_ifs with c1 c2 c3 c4 c5
        · right
          refine ⟨key, r, rfl, h2, ?_, Or.inr ?_⟩
          · intro h0
            simp only [wrap_s64, W3C_VAL_LENGTH, W3C_KEY_LENGTH] at c3
            omega
          · show write_mem (write_mem _ _ _ _) _ _ _ = _
            unfold mem_with_line
            have e1 : of_s64 (wrap_s64 (to_s64 (read_u64 s.mem (ptr_add wp K.io_writer_n_pos))
                + ((W3C_KEY_LENGTH + 2 + W3C_VAL_LENGTH + 2 : Nat) : Int)))
                = of_s64 (to_s64 (read_u64 s.mem (ptr_add wp K.io_writer_n_pos)) + 70) := by
              simp only [wrap_s64, W3C_VAL_LENGTH, W3C_KEY_LENGTH, of_s64]
              congr 1
              omega
            rw [e1, tp_str_written]
        · right
          refine ⟨key, r, rfl, h2, ?_, Or.inl ?_⟩
          · intro h0
            simp only [wrap_s64, W3C_VAL_LENGTH, W3C_KEY_LENGTH] at c3
            omega
          · show write_mem _ _ _ _ = _
            unfold mem_with_line
            rw [tp_str_written]
        · left; rfl
        · left; rfl
        · left; rfl
        · left; rfl

/-- C1: buffer injection without room.  When the capacity field of the writer is
non-negative and capacity minus cursor is below the length of the header line
(W3C_KEY_LENGTH + 2 + W3C_VAL_LENGTH + 2), uprobe_writeSubset leaves the memory
of the monitored process as it was, whatever its helper calls return: neither
the output buffer nor the cursor field is written. -/
theorem writeSubset_no_room_no_write (K : Offsets) (H : Helpers) (o : WriteSubsetOutcome)
    (ctx : pt_regs) (s : State)
    (hcap : 0 ≤ writer_capacity K H ctx s)
    (hroom : writer_capacity K H ctx s - writer_cursor K H ctx s
      < ((W3C_KEY_LENGTH + 2 + W3C_VAL_LENGTH + 2 : Nat) : Int)) :
    (uprobe_writeSubset K H o ctx s).mem = s.mem := by
  unfold uprobe_writeSubset
  dsimp only
  rw [writeSubset_body_no_room K H o _ _ s hcap hroom]

/-- C6: the header binding is consumed.  Whatever the lookups, reads, the
capacity check and the writes of uprobe_writeSubset do, the header-binding map
has no entry for the header container h of the call when the hook returns, and
its entry for every other container is as before. -/
theorem writeSubset_consumes_binding (K : Offsets) (H : Helpers) (o : WriteSubsetOutcome)
    (ctx : pt_regs) (s : State) :
    bpf_map_lookup_elem (uprobe_writeSubset K H o ctx s).http_headers
        (H.get_argument ctx s.mem 1) = none ∧
    ∀ h2, h2 ≠ H.get_argument ctx s.mem 1 →
      bpf_map_lookup_elem (uprobe_writeSubset K H o ctx s).http_headers h2
        = bpf_map_lookup_elem s.http_headers h2 := by
  unfold uprobe_writeSubset
  dsimp only
  rw [writeSubset_body_headers]
  exact ⟨lookup_delete_self _ _, fun h2 hne => lookup_delete_other _ _ _ hne⟩

/-- C7: the injected header line.  uprobe_writeSubset either leaves the memory
as it was, or there is a record r bound to the header container and the memory
is the old one with the line "Traceparent: " ++ propagation string of r.sc ++
"\r\n" (W3C_KEY_LENGTH + 2 + W3C_VAL_LENGTH + 2 bytes) stored at the base
pointer plus the cursor masked to 16 bits, possibly followed by the store of the
cursor advanced by the length of the line (in 64-bit arithmetic) into the
cursor field.  The masked address is base plus cursor when 0 <= cursor < 65536,
and the advanced cursor does not wrap when the capacity is non-negative. -/
theorem writeSubset_writes_header_line (K : Offsets) (H : Helpers) (o : WriteSubsetOutcome)
    (ctx : pt_regs) (s : State) :
    (uprobe_writeSubset K H o ctx s).mem = s.mem ∨
    ∃ key r,
      bpf_map_lookup_elem s.http_headers (H.get_argument ctx s.mem 1) = some key ∧
      bpf_map_lookup_elem s.http_events key = some r ∧
      (header_line (H.span_context_to_w3c_string r.sc)).length
        = W3C_KEY_LENGTH + 2 + W3C_VAL_LENGTH + 2 ∧
      ((uprobe_writeSubset K H o ctx s).mem
          = mem_with_line s.mem (writer_base K H ctx s) (writer_cursor K H ctx s)
              (H.span_context_to_w3c_string r.sc) ∨
       (uprobe_writeSubset K H o ctx s).mem
          = write_mem (mem_with_line s.mem (writer_base K H ctx s) (writer_cursor K H ctx s)
              (H.span_context_to_w3c_string r.sc))
            (writer_cursor_addr K H ctx s) 8
            (le64 (of_s64 (writer_cursor K H ctx s
              + (header_line (H.span_context_to_w3c_string r.sc)).length)))) ∧
      (0 ≤ writer_cursor K H ctx s → writer_cursor K H ctx s < 65536 →
        ptr_add (writer_base K H ctx s) (of_s64 (writer_cursor K H ctx s) % 65536)
          = ptr_add (writer_base K H ctx s) (writer_cursor K H ctx s).toNat) ∧
      (0 ≤ writer_capacity K H ctx s →
        to_s64 (of_s64 (writer_cursor K H ctx s
            + (header_line (H.span_context_to_w3c_string r.sc)).length))
          = writer_cursor K H ctx s
            + (header_line (H.span_context_to_w3c_string r.sc)).length) := by
  have hb := to_s64_range _ (read_u64_lt s.mem
      (ptr_add (ptr_add (H.get_argument ctx s.mem 3) K.io_writer_buf_ptr_pos)
        go_slice_cap_offset))
  have hc := to_s64_range _ (read_u64_lt s.mem
      (ptr_add (H.get_argument ctx s.mem 3) K.io_writer_n_pos))
  rcases writeSubset_body_mem K H o (H.get_argument ctx s.mem 1) (H.get_argument ctx s.mem 3) s
    with h | ⟨key, r, h1, h2, hg, h3⟩
  · left
    exact h
  · right
    refine ⟨key, r, h1, h2, header_line_length _, ?_, ?_, ?_⟩
    · rw [header_line_length]
      simpa [uprobe_writeSubset, writer_base, writer_cursor, writer_cursor_addr,
        W3C_KEY_LENGTH, W3C_VAL_LENGTH] using h3
    · intro h0 h1
      have : of_s64 (writer_cursor K H ctx s) % 65536 = (writer_cursor K H ctx s).toNat := by
        unfold of_s64
        omega
      rw [this]
    · intro h0
      have hg2 := hg h0
      rw [header_line_length]
      simp only [writer_cursor, writer_capacity, W3C_KEY_LENGTH, W3C_VAL_LENGTH] at *
      generalize to_s64 (read_u64 s.mem
        (ptr_add (H.get_argument ctx s.mem 3) K.io_writer_n_pos)) = cur at *
      generalize to_s64 (read_u64 s.mem
        (ptr_add (ptr_add (H.get_argument ctx s.mem 3) K.io_writer_buf_ptr_pos)
          go_slice_cap_offset)) = cap at *
      unfold of_s64 to_s64
      split <;> omega

/-! ## The entry and return hooks -/

theorem lookup_store_other {V : Type} (m : List (Nat × V)) (k k2 : Nat) (v : V)
    (hne : k2 ≠ k) :
    bpf_map_lookup_elem (map_store m k v) k2 = bpf_map_lookup_elem m k2 := by
  induction m with
  | nil => rfl
  | cons e rest ih =>
    obtain ⟨a, w⟩ := e
    by_cases h : a = k
    · have h3 : ¬ k = k2 := fun h2 => hne h2.symm
      simp [map_store, bpf_map_lookup_elem, h, ih, h3]
    · by_cases h2 : a = k2
      · subst h2
        simp [map_store, bpf_map_lookup_elem, h]
      · simp [map_store, bpf_map_lookup_elem, h, h2, ih]

theorem roundTrip_Returns_mem (K : Offsets) (H : Helpers) (o : ReturnsOutcome)
    (ctx : pt_regs) (s : State) :
    (uprobe_Transport_roundTrip_Returns K H o ctx s).mem = s.mem := by
  unfold uprobe_Transport_roundTrip_Returns
  dsimp only
  cases bpf_map_lookup_elem s.http_events
      (H.get_consistent_key ctx (H.get_Go_context ctx s.mem 2 K.ctx_ptr_pos false)) with
  | none => rfl
  | some r => rfl

/-- C8: the return transition.  When the record map holds a record r under the
correlation key of the call, uprobe_Transport_roundTrip_Returns appends exactly
one event, r with end_time set to the time stamped at hook entry and, under the
register-based convention only, status_code read from the response; afterwards
the map has no entry under the key and every other entry is as before, so a
further return hook of the same call emits nothing.  When the map holds no
record under the key the hook changes nothing. -/
theorem roundTrip_Returns_emits_once (K : Offsets) (H : Helpers) (o : ReturnsOutcome)
    (ctx : pt_regs) (s : State) :
    (∀ r, bpf_map_lookup_elem s.http_events (correlation_key K H ctx s) = some r →
      (uprobe_Transport_roundTrip_Returns K H o ctx s).events
          = s.events ++ [finished_record K H o ctx s r] ∧
      bpf_map_lookup_elem (uprobe_Transport_roundTrip_Returns K H o ctx s).http_events
          (correlation_key K H ctx s) = none ∧
      (∀ k2, k2 ≠ correlation_key K H ctx s →
        bpf_map_lookup_elem (uprobe_Transport_roundTrip_Returns K H o ctx s).http_events k2
          = bpf_map_lookup_elem s.http_events k2) ∧
      (∀ o2, uprobe_Transport_roundTrip_Returns K H o2 ctx
          (uprobe_Transport_roundTrip_Returns K H o ctx s)
        = uprobe_Transport_roundTrip_Returns K H o ctx s)) ∧
    (bpf_map_lookup_elem s.http_events (correlation_key K H ctx s) = none →
      uprobe_Transport_roundTrip_Returns K H o ctx s = s) := by
  constructor
  · intro r hr
    have hmem := roundTrip_Returns_mem K H o ctx s
    have hev : (uprobe_Transport_roundTrip_Returns K H o ctx s).events
          = s.events ++ [finished_record K H o ctx s r] ∧
        (uprobe_Transport_roundTrip_Returns K H o ctx s).http_events
          = bpf_map_delete_elem (map_store s.http_events (correlation_key K H ctx s)
              (finished_record K H o ctx s r)) (correlation_key K H ctx s) := by
      unfold correlation_key at hr
      unfold uprobe_Transport_roundTrip_Returns finished_record correlation_key
      dsimp only
      rw [hr]
      dsimp only
      cases H.is_register_abi <;> exact ⟨rfl, rfl⟩
    have hnone : bpf_map_lookup_elem (uprobe_Transport_roundTrip_Returns K H o ctx s).http_events
          (correlation_key K H ctx s) = none := by
      rw [hev.2]
      exact lookup_delete_self _ _
    refine ⟨hev.1, hnone, ?_, ?_⟩
    · intro k2 hne
      rw [hev.2, lookup_delete_other _ _ _ hne, lookup_store_other _ _ _ _ hne]
    · intro o2
      have hk : correlation_key K H ctx (uprobe_Transport_roundTrip_Returns K H o ctx s)
          = correlation_key K H ctx s := by
        unfold correlation_key
        rw [hmem]
      rw [← hk] at hnone
      unfold correlation_key at hnone
      generalize uprobe_Transport_roundTrip_Returns K H o ctx s = s1 at *
      unfold uprobe_Transport_roundTrip_Returns
      dsimp only
      rw [hnone]
  · intro hnone
    unfold correlation_key at hnone
    unfold uprobe_Transport_roundTrip_Returns
    dsimp only
    rw [hnone]

/-- C9: first writer wins.  When the record map already holds a record under
the correlation key of the call, uprobe_Transport_roundTrip returns the state it
was given: the stored record and every other entry, the header bindings, the
scratch record and the registered spans are all as before. -/
theorem roundTrip_duplicate_is_noop (K : Offsets) (H : Helpers) (o : RoundTripOutcome)
    (ctx : pt_regs) (s : State) (r : http_request_t)
    (h : bpf_map_lookup_elem s.http_events (correlation_key K H ctx s) = some r) :
    uprobe_Transport_roundTrip K H o ctx s = s := by
  unfold correlation_key at h
  unfold uprobe_Transport_roundTrip
  dsimp only
  by_cases h0 : H.get_Go_context ctx s.mem 2 K.ctx_ptr_pos false = 0
  · rw [if_pos h0]
  · rw [if_neg h0, h]

theorem read_optional_fields_sc (K : Offsets) (H : Helpers) (o : RoundTripOutcome) (m : Mem)
    (req_ptr : Nat) (r : http_request_t) :
    (read_optional_fields K H o m req_ptr r).sc = r.sc
      ∧ (read_optional_fields K H o m req_ptr r).psc = r.psc :=
  ⟨rfl, rfl⟩

/-- C10: the identifiers of a published record.  When uprobe_Transport_roundTrip
publishes a record (the record map had none under the correlation key before the
hook and has rec afterwards): if a parent span context p is found, rec has the
trace identifier of p, the span identifier of p as its parent span identifier,
and the SPAN_ID_SIZE freshly generated random bytes as its span identifier; if
none is found, the span context of rec is the freshly generated one and its
parent span context is all zero. -/
theorem roundTrip_published_identifiers (K : Offsets) (H : Helpers) (o : RoundTripOutcome)
    (ctx : pt_regs) (s : State) (rec : http_request_t)
    (hnew : bpf_map_lookup_elem s.http_events (correlation_key K H ctx s) = none)
    (hpub : bpf_map_lookup_elem (uprobe_Transport_roundTrip K H o ctx s).http_events
      (correlation_key K H ctx s) = some rec) :
    (∀ p, H.get_parent_span_context s.tracked s.mem
          (H.get_Go_context ctx s.mem 2 K.ctx_ptr_pos false) = some p →
      (∀ i, i < TRACE_ID_SIZE → rec.sc.TraceID i = p.TraceID i) ∧
      (∀ i, i < SPAN_ID_SIZE → rec.psc.SpanID i = p.SpanID i) ∧
      (∀ i, i < SPAN_ID_SIZE → rec.sc.SpanID i = o.random_bytes i)) ∧
    (H.get_parent_span_context s.tracked s.mem
          (H.get_Go_context ctx s.mem 2 K.ctx_ptr_pos false) = none →
      rec.sc = o.generated ∧ rec.psc = zero_span_context) := by
  unfold correlation_key at hnew hpub
  unfold uprobe_Transport_roundTrip at hpub
  dsimp only at hpub
  by_cases h0 : H.get_Go_context ctx s.mem 2 K.ctx_ptr_pos false = 0
  · rw [if_pos h0, hnew] at hpub
    exact absurd hpub (by simp)
  · rw [if_neg h0, hnew] at hpub
    dsimp only at hpub
    cases hs : s.http_client_uprobe_storage_map with
    | none =>
      rw [hs] at hpub
      dsimp only at hpub
      rw [hnew] at hpub; exact absurd hpub (by simp)
    | some scratch =>
      rw [hs] at hpub
      dsimp only at hpub
      rw [apply_ite State.http_events] at hpub
      dsimp only at hpub
      unfold bpf_map_update_elem at hpub
      rw [hnew] at hpub
      dsimp only at hpub
      split_ifs at hpub with hm hlen
      all_goals first
        | (rw [hnew] at hpub; exact absurd hpub (by simp))
        | skip
      simp only [bpf_map_lookup_elem, if_true, Option.some.injEq] at hpub
      subst hpub
      constructor
      · intro p hp
        rw [hp]
        simp only [set_span_contexts, copy_byte_arrays, generate_random_bytes]
        refine ⟨?_, ?_, ?_⟩
        · intro i hi
          show (if i < TRACE_ID_SIZE then _ else _) = _
          rw [if_pos hi]
        · intro i hi
          rfl
        · intro i hi
          show (if i < SPAN_ID_SIZE then _ else _) = _
          rw [if_pos hi]
      · intro hp
        rw [hp]
        exact ⟨rfl, rfl⟩

/-! ## inject_header -/

theorem write_mem_outside (m : Mem) (q n : Nat) (d : Buf) (x : Nat)
    (h : x < q ∨ q + n ≤ x) : write_mem m q n d x = m x := by
  unfold write_mem
  rw [if_neg (by omega)]

theorem write_mem_inside (m : Mem) (q n : Nat) (d : Buf) (x : Nat)
    (h : q ≤ x ∧ x < q + n) : write_mem m q n d x = d (x - q) := by
  unfold write_mem
  rw [if_pos h]

theorem read_u64_write_apart (m : Mem) (q n : Nat) (d : Buf) (p : Nat)
    (h : ranges_disjoint p 8 q n) : read_u64 (write_mem m q n d) p = read_u64 m p := by
  unfold ranges_disjoint at h
  unfold read_u64
  rw [write_mem_outside m q n d p (by omega), write_mem_outside m q n d (p + 1) (by omega),
    write_mem_outside m q n d (p + 2) (by omega), write_mem_outside m q n d (p + 3) (by omega),
    write_mem_outside m q n d (p + 4) (by omega), write_mem_outside m q n d (p + 5) (by omega),
    write_mem_outside m q n d (p + 6) (by omega), write_mem_outside m q n d (p + 7) (by omega)]

theorem read_u64_of_bytes (m : Mem) (p v : Nat) (h : ∀ i, i < 8 → m (p + i) = le64 v i) :
    read_u64 m p = v % 18446744073709551616 := by
  have h0 := h 0 (by omega)
  have h1 := h 1 (by omega)
  have h2 := h 2 (by omega)
  have h3 := h 3 (by omega)
  have h4 := h 4 (by omega)
  have h5 := h 5 (by omega)
  have h6 := h 6 (by omega)
  have h7 := h 7 (by omega)
  simp only [le64, Nat.add_zero] at h0 h1 h2 h3 h4 h5 h6 h7
  norm_num at h0 h1 h2 h3 h4 h5 h6 h7
  unfold read_u64
  rw [h0, h1, h2, h3, h4, h5, h6, h7]
  omega

theorem read_u64_write_same (m : Mem) (p v : Nat) :
    read_u64 (write_mem m p 8 (le64 v)) p = v % 18446744073709551616 := by
  apply read_u64_of_bytes
  intro i hi
  rw [write_mem_inside _ _ _ _ _ (by omega)]
  congr 1
  omega

/-- C3: injection into a full array.  When the read of the entry count
succeeds and the count is 8 or more, inject_header returns failure and the
state it leaves is the state it was given: no foreign byte is written, nothing
is allocated and the scratch block is not touched. -/
theorem inject_header_full_array (K : Offsets) (H : Helpers) (o : InjectOutcome)
    (headers_ptr : Nat) (propagated_ctx : span_context) (s : State)
    (hread : o.read_count = true) (hfull : 8 ≤ map_count s.mem headers_ptr) :
    inject_header K H o headers_ptr propagated_ctx s = (-1, s) := by
  unfold map_count at hfull
  unfold inject_header
  simp only [hread, not_true_eq_false, if_false]
  rw [if_pos hfull]

theorem agrees_outside_refl (m : Mem) (ranges : List (Nat × Nat)) :
    agrees_outside m m ranges := fun _ _ => rfl

theorem agrees_outside_write (m m2 : Mem) (ranges : List (Nat × Nat)) (p n : Nat) (d : Buf)
    (h : agrees_outside m m2 ranges) (hin : (p, n) ∈ ranges) :
    agrees_outside m (write_mem m2 p n d) ranges := by
  intro x hx
  have h1 := hx (p, n) hin
  rw [write_mem_outside _ _ _ _ _ h1]
  exact h x hx

theorem read_u64_agrees (m m2 : Mem) (ranges : List (Nat × Nat)) (p : Nat)
    (h : agrees_outside m m2 ranges)
    (hd : ∀ r ∈ ranges, ranges_disjoint p 8 r.1 r.2) : read_u64 m2 p = read_u64 m p := by
  have e : ∀ j, j < 8 → m2 (p + j) = m (p + j) := by
    intro j hj
    apply h
    intro r hr
    have := hd r hr
    unfold ranges_disjoint at this
    omega
  unfold read_u64
  rw [← Nat.add_zero p, e 0 (by omega), e 1 (by omega), e 2 (by omega), e 3 (by omega),
    e 4 (by omega), e 5 (by omega), e 6 (by omega), e 7 (by omega)]

theorem block_is_agrees (m m2 : Mem) (ranges : List (Nat × Nat)) (p : Nat) (b : Buf)
    (h : agrees_outside m m2 ranges)
    (hd : ∀ r ∈ ranges, ranges_disjoint p sizeof_map_bucket r.1 r.2)
    (hb : block_is m p b) : block_is m2 p b := by
  intro i hi
  rw [← hb i hi]
  apply h
  intro r hr
  have := hd r hr
  unfold ranges_disjoint at this
  omega

theorem block_is_write (m : Mem) (p : Nat) (b : Buf) :
    block_is (write_mem m p sizeof_map_bucket b) p b := by
  intro i hi
  rw [write_mem_inside _ _ _ _ _ (by omega)]
  congr 1
  omega

theorem block_is_write_apart (m : Mem) (p q n : Nat) (b d : Buf)
    (hd : ranges_disjoint p sizeof_map_bucket q n) (hb : block_is m p b) :
    block_is (write_mem m q n d) p b := by
  intro i hi
  unfold ranges_disjoint at hd
  rw [write_mem_outside _ _ _ _ _ (by omega)]
  exact hb i hi

/-- What inject_header_entry (lines 146-197) leaves in memory: only strings were
allocated (failure), or the count was written on top of them (failure), or the
block was written as well (success). -/
theorem inject_header_entry_cases (H : Helpers) (o : InjectOutcome) (headers_ptr : Nat)
    (propagated_ctx : span_context) (count bucket_ptr : Nat) (b : Buf) (s : State) :
    ((inject_header_entry H o headers_ptr propagated_ctx count bucket_ptr b s).1 = -1 ∧
      agrees_outside s.mem
        (inject_header_entry H o headers_ptr propagated_ctx count bucket_ptr b s).2.mem
        (string_ranges o)) ∨
    ((inject_header_entry H o headers_ptr propagated_ctx count bucket_ptr b s).1 = -1 ∧
      agrees_outside s.mem (mem_with_strings H o propagated_ctx s.mem) (string_ranges o) ∧
      (inject_header_entry H o headers_ptr propagated_ctx count bucket_ptr b s).2.mem
        = write_mem (mem_with_strings H o propagated_ctx s.mem) headers_ptr 8
            (le64 ((count + 1) % 18446744073709551616))) ∨
    ((inject_header_entry H o headers_ptr propagated_ctx count bucket_ptr b s).1 = 0 ∧
      agrees_outside s.mem (mem_with_strings H o propagated_ctx s.mem) (string_ranges o) ∧
      (inject_header_entry H o headers_ptr propagated_ctx count bucket_ptr b s).2.mem
        = write_mem
            (write_mem (mem_with_strings H o propagated_ctx s.mem) headers_ptr 8
              (le64 ((count + 1) % 18446744073709551616)))
            bucket_ptr sizeof_map_bucket
            (with_entry b (count % 8) o.alloc_key o.alloc_go_string)) := by
  have hk : alloc_range o.alloc_key W3C_KEY_LENGTH ∈ string_ranges o := by
    simp [string_ranges]
  have hv : alloc_range o.alloc_val W3C_VAL_LENGTH ∈ string_ranges o := by
    simp [string_ranges]
  have hg : alloc_range o.alloc_go_string 16 ∈ string_ranges o := by
    simp [string_ranges]
  unfold inject_header_entry
  dsimp only
  by_cases h1 : o.alloc_key = 0
  · left
    simp [write_target_data, inject_return, h1, agrees_outside_refl]
  · have hk2 : (o.alloc_key, W3C_KEY_LENGTH) ∈ string_ranges o := by
      simpa [alloc_range, h1] using hk
    by_cases h2 : o.alloc_val = 0
    · left
      simp only [write_target_data, inject_return, h1, h2, if_false, if_true]
      exact ⟨trivial, agrees_outside_write _ _ _ _ _ _ (agrees_outside_refl _ _) hk2⟩
    · have hv2 : (o.alloc_val, W3C_VAL_LENGTH) ∈ string_ranges o := by
        simpa [alloc_range, h2] using hv
      by_cases h3 : o.alloc_go_string = 0
      · left
        simp only [write_target_data, inject_return, h1, h2, h3, if_false, if_true]
        exact ⟨trivial, agrees_outside_write _ _ _ _ _ _
          (agrees_outside_write _ _ _ _ _ _ (agrees_outside_refl _ _) hk2) hv2⟩
      · have hg2 : (o.alloc_go_string, 16) ∈ string_ranges o := by
          simpa [alloc_range, h3] using hg
        cases h4 : o.write_count with
        | false =>
          left
          simp only [write_target_data, inject_return, h1, h2, h3, h4, if_false,
            Bool.false_eq_true, not_false_eq_true, if_true]
          exact ⟨trivial, agrees_outside_write _ _ _ _ _ _ (agrees_outside_write _ _ _ _ _ _
            (agrees_outside_write _ _ _ _ _ _ (agrees_outside_refl _ _) hk2) hv2) hg2⟩
        | true =>
          have hagree : agrees_outside s.mem (mem_with_strings H o propagated_ctx s.mem)
              (string_ranges o) :=
            agrees_outside_write _ _ _ _ _ _ (agrees_outside_write _ _ _ _ _ _
              (agrees_outside_write _ _ _ _ _ _ (agrees_outside_refl _ _) hk2) hv2) hg2
          cases h5 : o.write_bucket with
          | false =>
            right; left
            simp only [write_target_data, inject_return, h1, h2, h3, h4, h5, if_false,
              Bool.false_eq_true, not_true_eq_false, not_false_eq_true, if_true]
            exact ⟨trivial, hagree, rfl⟩
          | true =>
            right; right
            simp only [write_target_data, inject_return, h1, h2, h3, h4, h5, if_false,
              not_true_eq_false]
            exact ⟨trivial, hagree, rfl⟩

theorem with_entry_tophash (b : Buf) (slot k g : Nat) (hs : slot < 8) :
    with_entry b slot k g (tophash_offset slot) = traceparent_tophash := by
  unfold with_entry buf_put tophash_offset keys_offset values_offset
  rw [if_neg (by omega), if_neg (by omega), if_pos (by omega)]
  simp [lit_buf]

theorem with_entry_key (b : Buf) (slot k g i : Nat) (hi : i < 16) :
    with_entry b slot k g (keys_offset slot + i) = go_string_bytes k W3C_KEY_LENGTH i := by
  unfold with_entry keys_offset values_offset
  show buf_put _ _ _ _ _ = _
  unfold buf_put
  rw [if_neg (by omega), if_pos (by omega)]
  congr 1
  omega

theorem with_entry_value (b : Buf) (slot k g i : Nat) (hi : i < 24) :
    with_entry b slot k g (values_offset slot + i) = go_slice_bytes g 1 1 i := by
  unfold with_entry values_offset
  show buf_put _ _ _ _ _ = _
  unfold buf_put
  rw [if_pos (by omega)]
  congr 1
  omega

theorem go_string_bytes_str (p l i : Nat) (hi : i < 8) : go_string_bytes p l i = le64 p i := by
  unfold go_string_bytes buf_put
  rw [if_neg (by omega), if_pos (by omega)]
  rfl

theorem go_string_bytes_len (p l i : Nat) (hi : i < 8) :
    go_string_bytes p l (8 + i) = le64 l i := by
  unfold go_string_bytes buf_put
  rw [if_pos (by omega)]
  congr 1
  omega

theorem go_slice_bytes_array (p l c i : Nat) (hi : i < 8) :
    go_slice_bytes p l c i = le64 p i := by
  unfold go_slice_bytes buf_put
  rw [if_neg (by omega), if_neg (by omega), if_pos (by omega)]
  rfl

theorem go_slice_bytes_len (p l c i : Nat) (hi : i < 8) :
    go_slice_bytes p l c (8 + i) = le64 l i := by
  unfold go_slice_bytes buf_put
  rw [if_neg (by omega), if_pos (by omega)]
  congr 1
  omega

theorem go_slice_bytes_cap (p l c i : Nat) (hi : i < 8) :
    go_slice_bytes p l c (16 + i) = le64 c i := by
  unfold go_slice_bytes buf_put
  rw [if_pos (by omega)]
  congr 1
  omega

/-- The fields of the new entry, read back from a block that holds it. -/
theorem block_entry_fields (m : Mem) (p : Nat) (b : Buf) (slot k g : Nat) (hs : slot < 8)
    (hb : block_is m p (with_entry b slot k g)) :
    m (p + tophash_offset slot) = traceparent_tophash ∧
    read_u64 m (p + keys_offset slot) = k % 18446744073709551616 ∧
    read_u64 m (p + keys_offset slot + 8) = W3C_KEY_LENGTH ∧
    read_u64 m (p + values_offset slot) = g % 18446744073709551616 ∧
    read_u64 m (p + values_offset slot + 8) = 1 ∧
    read_u64 m (p + values_offset slot + 16) = 1 := by
  have hk : ∀ i, i < 16 → m (p + keys_offset slot + i) = go_string_bytes k W3C_KEY_LENGTH i := by
    intro i hi
    rw [Nat.add_assoc, hb _ (by unfold keys_offset sizeof_map_bucket; omega), with_entry_key _ _ _ _ _ hi]
  have hv : ∀ i, i < 24 → m (p + values_offset slot + i) = go_slice_bytes g 1 1 i := by
    intro i hi
    rw [Nat.add_assoc, hb _ (by unfold values_offset sizeof_map_bucket; omega),
      with_entry_value _ _ _ _ _ hi]
  refine ⟨?_, ?_, ?_, ?_, ?_, ?_⟩
  · rw [hb _ (by unfold tophash_offset sizeof_map_bucket; omega), with_entry_tophash _ _ _ _ hs]
  · apply read_u64_of_bytes
    intro i hi
    rw [hk i (by omega), go_string_bytes_str _ _ _ hi]
  · have := read_u64_of_bytes m (p + keys_offset slot + 8) W3C_KEY_LENGTH (by
      intro i hi
      rw [Nat.add_assoc, hk (8 + i) (by omega), go_string_bytes_len _ _ _ hi])
    rw [this]
    simp [W3C_KEY_LENGTH]
  · apply read_u64_of_bytes
    intro i hi
    rw [hv i (by omega), go_slice_bytes_array _ _ _ _ hi]
  · have := read_u64_of_bytes m (p + values_offset slot + 8) 1 (by
      intro i hi
      rw [Nat.add_assoc, hv (8 + i) (by omega), go_slice_bytes_len _ _ _ _ hi])
    rw [this]
  · have := read_u64_of_bytes m (p + values_offset slot + 16) 1 (by
      intro i hi
      rw [Nat.add_assoc, hv (16 + i) (by omega), go_slice_bytes_cap _ _ _ _ hi])
    rw [this]

theorem inject_header_entry_success (H : Helpers) (o : InjectOutcome) (headers_ptr : Nat)
    (propagated_ctx : span_context) (count bucket_ptr : Nat) (b : Buf) (s : State)
    (hak : o.alloc_key ≠ 0) (hav : o.alloc_val ≠ 0) (hag : o.alloc_go_string ≠ 0)
    (hwc : o.write_count = true) (hwb : o.write_bucket = true) :
    (inject_header_entry H o headers_ptr propagated_ctx count bucket_ptr b s).1 = 0 ∧
    (inject_header_entry H o headers_ptr propagated_ctx count bucket_ptr b s).2.mem
        = write_mem
            (write_mem (mem_with_strings H o propagated_ctx s.mem) headers_ptr 8
              (le64 ((count + 1) % 18446744073709551616)))
            bucket_ptr sizeof_map_bucket
            (with_entry b (count % 8) o.alloc_key o.alloc_go_string) := by
  unfold inject_header_entry
  simp only [write_target_data, inject_return, hak, hav, hag, hwc, hwb, if_false,
    not_true_eq_false]
  exact ⟨trivial, rfl⟩

theorem traceparent_key_eq : "traceparent".toList.map Char.toNat = traceparent_key := by
  decide

theorem ranges_disjoint_symm (a n b k : Nat) (h : ranges_disjoint a n b k) :
    ranges_disjoint b k a n := by
  unfold ranges_disjoint at *
  omega

theorem write_mem_apart_at (m : Mem) (q k : Nat) (d : Buf) (p n i : Nat)
    (hd : ranges_disjoint p n q k) (hi : i < n) : write_mem m q k d (p + i) = m (p + i) := by
  unfold ranges_disjoint at hd
  exact write_mem_outside _ _ _ _ _ (by omega)

theorem write_mem_at (m : Mem) (p n : Nat) (d : Buf) (i : Nat) (hi : i < n) :
    write_mem m p n d (p + i) = d i := by
  rw [write_mem_inside _ _ _ _ _ (by omega), Nat.add_sub_cancel_left]

/-- Reading back the memory a successful injection into an empty array leaves;
the addresses are those of the count field (h), the block-pointer field (pp),
the new block (ab), the key (k), the propagation string (v) and its descriptor
(g). -/
theorem injected_memory_facts (m : Mem) (h pp ab k v g : Nat) (scratch tp blk : Buf)
    (d13 : ranges_disjoint h 8 ab 336)
    (d23 : ranges_disjoint pp 8 ab 336) (d24 : ranges_disjoint pp 8 k 11)
    (d25 : ranges_disjoint pp 8 v 55) (d26 : ranges_disjoint pp 8 g 16)
    (d21 : ranges_disjoint pp 8 h 8)
    (d43 : ranges_disjoint k 11 ab 336) (d45 : ranges_disjoint k 11 v 55)
    (d46 : ranges_disjoint k 11 g 16) (d41 : ranges_disjoint k 11 h 8)
    (d53 : ranges_disjoint v 55 ab 336) (d56 : ranges_disjoint v 55 g 16)
    (d51 : ranges_disjoint v 55 h 8)
    (d63 : ranges_disjoint g 16 ab 336) (d61 : ranges_disjoint g 16 h 8)
    (b3 : ab < 18446744073709551616) (b5 : v < 18446744073709551616)
    (M : Mem)
    (hM : M = write_mem
      (write_mem
        (write_mem
          (write_mem
            (write_mem
              (write_mem (write_mem m ab 336 scratch) pp 8 (le64 ab))
              k 11 (lit_buf traceparent_key))
            v 55 tp)
          g 16 (go_string_bytes v 55))
        h 8 (le64 1))
      ab 336 blk) :
    read_u64 M h = 1 ∧ read_u64 M pp = ab ∧
    (∀ i, i < 11 → M (k + i) = traceparent_key.getD i 0) ∧
    read_u64 M g = v ∧ read_u64 M (g + 8) = 55 ∧
    (∀ i, i < 55 → M (v + i) = tp i) := by
  subst hM
  have e63 : ranges_disjoint g 8 ab 336 := by
    unfold ranges_disjoint at d63 ⊢; omega
  have e61 : ranges_disjoint g 8 h 8 := by
    unfold ranges_disjoint at d61 ⊢; omega
  have f63 : ranges_disjoint (g + 8) 8 ab 336 := by
    unfold ranges_disjoint at d63 ⊢; omega
  have f61 : ranges_disjoint (g + 8) 8 h 8 := by
    unfold ranges_disjoint at d61 ⊢; omega
  clear d63 d61
  refine ⟨?_, ?_, ?_, ?_, ?_, ?_⟩
  · rw [read_u64_write_apart _ _ _ _ _ d13, read_u64_write_same]
  · rw [read_u64_write_apart _ _ _ _ _ d23, read_u64_write_apart _ _ _ _ _ d21,
      read_u64_write_apart _ _ _ _ _ d26, read_u64_write_apart _ _ _ _ _ d25,
      read_u64_write_apart _ _ _ _ _ d24, read_u64_write_same]
    exact Nat.mod_eq_of_lt b3
  · intro i hi
    rw [write_mem_apart_at _ _ _ _ _ _ _ d43 hi, write_mem_apart_at _ _ _ _ _ _ _ d41 hi,
      write_mem_apart_at _ _ _ _ _ _ _ d46 hi, write_mem_apart_at _ _ _ _ _ _ _ d45 hi,
      write_mem_at _ _ _ _ _ hi]
    rfl
  · rw [read_u64_write_apart _ _ _ _ _ e63, read_u64_write_apart _ _ _ _ _ e61]
    rw [read_u64_of_bytes _ g v (by
        intro i hi
        rw [write_mem_at _ _ _ _ _ (by omega), go_string_bytes_str _ _ _ hi])]
    exact Nat.mod_eq_of_lt b5
  · rw [read_u64_write_apart _ _ _ _ _ f63, read_u64_write_apart _ _ _ _ _ f61]
    rw [read_u64_of_bytes _ (g + 8) 55 (by
        intro i hi
        rw [Nat.add_assoc, write_mem_at _ _ _ _ _ (by omega), go_string_bytes_len _ _ _ hi])]
  · intro i hi
    rw [write_mem_apart_at _ _ _ _ _ _ _ d53 hi, write_mem_apart_at _ _ _ _ _ _ _ d51 hi,
      write_mem_apart_at _ _ _ _ _ _ _ d56 hi, write_mem_at _ _ _ _ _ hi]

/-- The disjointness facts of fresh allocations, for allocations that all
succeeded. -/
theorem fresh_allocations_facts (K : Offsets) (o : InjectOutcome) (headers_ptr : Nat)
    (hab : o.alloc_bucket ≠ 0) (hak : o.alloc_key ≠ 0) (hav : o.alloc_val ≠ 0)
    (hag : o.alloc_go_string ≠ 0) (hfresh : fresh_allocations K o headers_ptr) :
    (ranges_disjoint headers_ptr 8 (ptr_add headers_ptr K.buckets_ptr_pos) 8 ∧
      ranges_disjoint headers_ptr 8 o.alloc_bucket 336 ∧
      ranges_disjoint headers_ptr 8 o.alloc_key 11 ∧
      ranges_disjoint headers_ptr 8 o.alloc_val 55 ∧
      ranges_disjoint headers_ptr 8 o.alloc_go_string 16) ∧
    (ranges_disjoint (ptr_add headers_ptr K.buckets_ptr_pos) 8 o.alloc_bucket 336 ∧
      ranges_disjoint (ptr_add headers_ptr K.buckets_ptr_pos) 8 o.alloc_key 11 ∧
      ranges_disjoint (ptr_add headers_ptr K.buckets_ptr_pos) 8 o.alloc_val 55 ∧
      ranges_disjoint (ptr_add headers_ptr K.buckets_ptr_pos) 8 o.alloc_go_string 16) ∧
    (ranges_disjoint o.alloc_bucket 336 o.alloc_key 11 ∧
      ranges_disjoint o.alloc_bucket 336 o.alloc_val 55 ∧
      ranges_disjoint o.alloc_bucket 336 o.alloc_go_string 16) ∧
    (ranges_disjoint o.alloc_key 11 o.alloc_val 55 ∧
      ranges_disjoint o.alloc_key 11 o.alloc_go_string 16) ∧
    ranges_disjoint o.alloc_val 55 o.alloc_go_string 16 := by
  have h := hfresh.1
  simp only [injection_ranges, alloc_range, hab, hak, hav, hag, if_false,
    List.pairwise_cons, List.mem_cons, List.mem_singleton, forall_eq_or_imp, forall_eq,
    sizeof_map_bucket, W3C_KEY_LENGTH, W3C_VAL_LENGTH, List.not_mem_nil,
    false_implies, implies_true, List.Pairwise.nil, and_true, List.mem_nil_iff,
    IsEmpty.forall_iff] at h
  obtain ⟨⟨d12, d13, d14, d15, d16⟩, ⟨d23, d24, d25, d26⟩, ⟨d34, d35, d36⟩, ⟨d45, d46⟩, d56⟩ := h
  exact ⟨⟨d12, d13, d14, d15, d16⟩, ⟨d23, d24, d25, d26⟩, ⟨d34, d35, d36⟩, ⟨d45, d46⟩, d56⟩

/-- C2: injection into an empty array.  When the count of the foreign header is
0, the scratch block exists, every read, write and allocation of the call
succeeds and the allocator returns fresh memory, inject_header returns success
and afterwards: the count is 1; the block-pointer field holds the address of the
newly allocated block; slot 0 of that block has the type tag 0xee, a key
descriptor (pointer, length W3C_KEY_LENGTH) whose pointer addresses the bytes of
"traceparent", and a value descriptor (pointer, length 1, capacity 1) whose
pointer addresses a string descriptor (pointer, length W3C_VAL_LENGTH) of the
rendered propagation string of the given span context. -/
theorem inject_header_into_empty (K : Offsets) (H : Helpers) (o : InjectOutcome)
    (headers_ptr : Nat) (propagated_ctx : span_context) (s : State) (scratch : Buf)
    (hscratch : s.golang_mapbucket_storage_map = some scratch)
    (hread : o.read_count = true) (hcount : map_count s.mem headers_ptr = 0)
    (hab : o.alloc_bucket ≠ 0) (hwp : o.write_buckets_ptr = true)
    (hak : o.alloc_key ≠ 0) (hav : o.alloc_val ≠ 0) (hag : o.alloc_go_string ≠ 0)
    (hwc : o.write_count = true) (hwb : o.write_bucket = true)
    (hfresh : fresh_allocations K o headers_ptr) :
    (inject_header K H o headers_ptr propagated_ctx s).1 = 0 ∧
    map_count (inject_header K H o headers_ptr propagated_ctx s).2.mem headers_ptr = 1 ∧
    map_buckets K (inject_header K H o headers_ptr propagated_ctx s).2.mem headers_ptr
      = o.alloc_bucket ∧
    (inject_header K H o headers_ptr propagated_ctx s).2.mem
      (o.alloc_bucket + tophash_offset 0) = 0xee ∧
    read_u64 (inject_header K H o headers_ptr propagated_ctx s).2.mem
      (o.alloc_bucket + keys_offset 0) = o.alloc_key ∧
    read_u64 (inject_header K H o headers_ptr propagated_ctx s).2.mem
      (o.alloc_bucket + keys_offset 0 + 8) = W3C_KEY_LENGTH ∧
    (∀ i, i < W3C_KEY_LENGTH →
      (inject_header K H o headers_ptr propagated_ctx s).2.mem (o.alloc_key + i)
        = ("traceparent".toList.map Char.toNat).getD i 0) ∧
    read_u64 (inject_header K H o headers_ptr propagated_ctx s).2.mem
      (o.alloc_bucket + values_offset 0) = o.alloc_go_string ∧
    read_u64 (inject_header K H o headers_ptr propagated_ctx s).2.mem
      (o.alloc_bucket + values_offset 0 + 8) = 1 ∧
    read_u64 (inject_header K H o headers_ptr propagated_ctx s).2.mem
      (o.alloc_bucket + values_offset 0 + 16) = 1 ∧
    read_u64 (inject_header K H o headers_ptr propagated_ctx s).2.mem o.alloc_go_string
      = o.alloc_val ∧
    read_u64 (inject_header K H o headers_ptr propagated_ctx s).2.mem (o.alloc_go_string + 8)
      = W3C_VAL_LENGTH ∧
    (∀ i, i < W3C_VAL_LENGTH →
      (inject_header K H o headers_ptr propagated_ctx s).2.mem (o.alloc_val + i)
        = H.span_context_to_w3c_string propagated_ctx i) := by
  unfold map_count at hcount
  have hrun : inject_header K H o headers_ptr propagated_ctx s
      = inject_header_entry H o headers_ptr propagated_ctx 0 o.alloc_bucket scratch
          { s with
            mem := write_mem (write_mem s.mem o.alloc_bucket sizeof_map_bucket scratch)
              (ptr_add headers_ptr K.buckets_ptr_pos) 8 (le64 o.alloc_bucket),
            allocated := s.allocated ++ [(o.alloc_bucket, sizeof_map_bucket)] } := by
    unfold inject_header
    simp only [hread, hcount, hscratch, write_target_data, hab, hwp, not_true_eq_false,
      if_false, if_true, ge_iff_le, Nat.reduceLeDiff]
  obtain ⟨hcode, hmem⟩ := inject_header_entry_success H o headers_ptr propagated_ctx 0
    o.alloc_bucket scratch
    { s with
      mem := write_mem (write_mem s.mem o.alloc_bucket sizeof_map_bucket scratch)
        (ptr_add headers_ptr K.buckets_ptr_pos) 8 (le64 o.alloc_bucket),
      allocated := s.allocated ++ [(o.alloc_bucket, sizeof_map_bucket)] }
    hak hav hag hwc hwb
  rw [← hrun] at hcode hmem
  obtain ⟨⟨d12, d13, d14, d15, d16⟩, ⟨d23, d24, d25, d26⟩, ⟨d34, d35, d36⟩, ⟨d45, d46⟩, d56⟩ :=
    fresh_allocations_facts K o headers_ptr hab hak hav hag hfresh
  obtain ⟨-, b3, b4, b5, b6⟩ := hfresh
  have hblock : block_is (inject_header K H o headers_ptr propagated_ctx s).2.mem
      o.alloc_bucket (with_entry scratch (0 % 8) o.alloc_key o.alloc_go_string) := by
    rw [hmem]
    exact block_is_write _ _ _
  obtain ⟨f1, f2, f3, f4, f5, f6⟩ := block_entry_fields _ _ _ _ _ _ (by decide) hblock
  obtain ⟨g1, g2, g3, g4, g5, g6⟩ := injected_memory_facts s.mem headers_ptr
    (ptr_add headers_ptr K.buckets_ptr_pos) o.alloc_bucket o.alloc_key o.alloc_val
    o.alloc_go_string scratch (H.span_context_to_w3c_string propagated_ctx)
    (with_entry scratch (0 % 8) o.alloc_key o.alloc_go_string)
    d13 d23 d24 d25 d26 (ranges_disjoint_symm _ _ _ _ d12)
    (ranges_disjoint_symm _ _ _ _ d34) d45 d46 (ranges_disjoint_symm _ _ _ _ d14)
    (ranges_disjoint_symm _ _ _ _ d35) d56 (ranges_disjoint_symm _ _ _ _ d15)
    (ranges_disjoint_symm _ _ _ _ d36) (ranges_disjoint_symm _ _ _ _ d16) b3 b5
    (inject_header K H o headers_ptr propagated_ctx s).2.mem hmem
  rw [Nat.mod_eq_of_lt b4] at f2
  rw [Nat.mod_eq_of_lt b6] at f4
  rw [traceparent_key_eq]
  exact ⟨hcode, g1, g2, f1, f2, f3, g3, f4, f5, f6, g4, g5, g6⟩

/-- What fresh allocations give for the header fields and the new block, whether
or not each allocation succeeded. -/
theorem fresh_strings_apart (K : Offsets) (o : InjectOutcome) (headers_ptr : Nat)
    (hfresh : fresh_allocations K o headers_ptr) :
    (∀ r ∈ string_ranges o, ranges_disjoint headers_ptr 8 r.1 r.2) ∧
    (∀ r ∈ string_ranges o,
      ranges_disjoint (ptr_add headers_ptr K.buckets_ptr_pos) 8 r.1 r.2) ∧
    ranges_disjoint (ptr_add headers_ptr K.buckets_ptr_pos) 8 headers_ptr 8 ∧
    (o.alloc_bucket ≠ 0 →
      (∀ r ∈ string_ranges o, ranges_disjoint o.alloc_bucket sizeof_map_bucket r.1 r.2) ∧
      ranges_disjoint headers_ptr 8 o.alloc_bucket sizeof_map_bucket ∧
      ranges_disjoint (ptr_add headers_ptr K.buckets_ptr_pos) 8 o.alloc_bucket sizeof_map_bucket ∧
      ranges_disjoint o.alloc_bucket sizeof_map_bucket headers_ptr 8 ∧
      ranges_disjoint o.alloc_bucket sizeof_map_bucket
        (ptr_add headers_ptr K.buckets_ptr_pos) 8) := by
  have h := hfresh.1
  simp only [injection_ranges, List.pairwise_cons, List.mem_cons, List.mem_singleton,
    forall_eq_or_imp, forall_eq, List.not_mem_nil, false_implies, implies_true,
    List.Pairwise.nil, and_true, List.mem_nil_iff, IsEmpty.forall_iff] at h
  obtain ⟨⟨d12, d13, d14, d15, d16⟩, ⟨d23, d24, d25, d26⟩, ⟨d34, d35, d36⟩, -, -⟩ := h
  refine ⟨?_, ?_, ranges_disjoint_symm _ _ _ _ d12, ?_⟩
  · intro r hr
    simp only [string_ranges, List.mem_cons, List.mem_singleton, List.not_mem_nil,
      or_false] at hr
    rcases hr with rfl | rfl | rfl
    · exact d14
    · exact d15
    · exact d16
  · intro r hr
    simp only [string_ranges, List.mem_cons, List.mem_singleton, List.not_mem_nil,
      or_false] at hr
    rcases hr with rfl | rfl | rfl
    · exact d24
    · exact d25
    · exact d26
  · intro hab
    simp only [alloc_range, hab, if_false] at d13 d23 d34 d35 d36
    refine ⟨?_, d13, d23, ranges_disjoint_symm _ _ _ _ d13, ranges_disjoint_symm _ _ _ _ d23⟩
    intro r hr
    simp only [string_ranges, List.mem_cons, List.mem_singleton, List.not_mem_nil,
      or_false] at hr
    rcases hr with rfl | rfl | rfl
    · exact d34
    · exact d35
    · exact d36

theorem existing_block_facts (K : Offsets) (o : InjectOutcome) (headers_ptr : Nat) (m : Mem)
    (h : existing_block_apart K o headers_ptr m) :
    ranges_disjoint (map_buckets K m headers_ptr) sizeof_map_bucket headers_ptr 8 ∧
    ranges_disjoint headers_ptr 8 (map_buckets K m headers_ptr) sizeof_map_bucket ∧
    ranges_disjoint (ptr_add headers_ptr K.buckets_ptr_pos) 8
      (map_buckets K m headers_ptr) sizeof_map_bucket ∧
    (∀ r ∈ string_ranges o,
      ranges_disjoint (map_buckets K m headers_ptr) sizeof_map_bucket r.1 r.2) := by
  unfold existing_block_apart at h
  have h1 := h (headers_ptr, 8) (by simp)
  have h2 := h (ptr_add headers_ptr K.buckets_ptr_pos, 8) (by simp)
  refine ⟨h1, ranges_disjoint_symm _ _ _ _ h1, ranges_disjoint_symm _ _ _ _ h2, ?_⟩
  intro r hr
  apply h
  simp only [string_ranges, List.mem_cons, List.mem_singleton, List.not_mem_nil,
    or_false] at hr
  rcases hr with rfl | rfl | rfl <;> simp

theorem block_is_read (m : Mem) (p : Nat) : block_is m p (read_mem m p sizeof_map_bucket) := by
  intro i hi
  unfold read_mem
  rw [if_pos hi]

theorem array_untouched_refl (K : Offsets) (headers_ptr : Nat) (m : Mem) :
    array_untouched K headers_ptr m m :=
  ⟨rfl, rfl, fun _ => block_is_read _ _⟩

/-- The array states inject_header can leave when the array was empty. -/
theorem inject_header_states_empty (K : Offsets) (H : Helpers) (o : InjectOutcome)
    (headers_ptr : Nat) (propagated_ctx : span_context) (s : State) (scratch : Buf)
    (hfresh : fresh_allocations K o headers_ptr)
    (hread : o.read_count = true) (hcount : map_count s.mem headers_ptr = 0)
    (hscratch : s.golang_mapbucket_storage_map = some scratch) :
    ((inject_header K H o headers_ptr propagated_ctx s).1 = -1 ∧
      (array_untouched K headers_ptr s.mem
          (inject_header K H o headers_ptr propagated_ctx s).2.mem ∨
       array_pointer_patched K o headers_ptr s.mem
          (inject_header K H o headers_ptr propagated_ctx s).2.mem ∨
       array_count_only K headers_ptr s
          (inject_header K H o headers_ptr propagated_ctx s).2.mem)) ∨
    ((inject_header K H o headers_ptr propagated_ctx s).1 = 0 ∧
      array_updated_by K o headers_ptr s
        (inject_header K H o headers_ptr propagated_ctx s).2.mem) := by
  obtain ⟨sh, sp, dph, hnew⟩ := fresh_strings_apart K o headers_ptr hfresh
  obtain ⟨-, b3, -, -, -⟩ := hfresh
  have hbase : base_block K headers_ptr s = scratch := by
    unfold base_block
    rw [if_pos hcount, hscratch]
  have hc0 := hcount
  unfold map_count at hcount
  by_cases hab : o.alloc_bucket = 0
  · have hrun : inject_header K H o headers_ptr propagated_ctx s = (-1, s) := by
      unfold inject_header
      simp only [hread, hcount, hscratch, write_target_data, hab, not_true_eq_false,
        if_false, if_true, ge_iff_le, Nat.reduceLeDiff]
    rw [hrun]
    exact Or.inl ⟨rfl, Or.inl (array_untouched_refl _ _ _)⟩
  · obtain ⟨nb, nh, np, nbh, nbp⟩ := hnew hab
    cases hwp : o.write_buckets_ptr with
    | false =>
      have hrun : inject_header K H o headers_ptr propagated_ctx s
          = (-1, { s with
              mem := write_mem s.mem o.alloc_bucket sizeof_map_bucket scratch,
              allocated := s.allocated ++ [(o.alloc_bucket, sizeof_map_bucket)] }) := by
        unfold inject_header
        simp only [hread, hcount, hscratch, write_target_data, hab, hwp, not_true_eq_false,
          if_false, if_true, ge_iff_le, Nat.reduceLeDiff, Bool.false_eq_true,
          not_false_eq_true]
      rw [hrun]
      refine Or.inl ⟨rfl, Or.inl ⟨?_, ?_, ?_⟩⟩
      · exact read_u64_write_apart _ _ _ _ _ nh
      · exact read_u64_write_apart _ _ _ _ _ np
      · intro hpos
        omega
    | true =>
      have hrun : inject_header K H o headers_ptr propagated_ctx s
          = inject_header_entry H o headers_ptr propagated_ctx 0 o.alloc_bucket scratch
              { s with
                mem := write_mem (write_mem s.mem o.alloc_bucket sizeof_map_bucket scratch)
                  (ptr_add headers_ptr K.buckets_ptr_pos) 8 (le64 o.alloc_bucket),
                allocated := s.allocated ++ [(o.alloc_bucket, sizeof_map_bucket)] } := by
        unfold inject_header
        simp only [hread, hcount, hscratch, write_target_data, hab, hwp, not_true_eq_false,
          if_false, if_true, ge_iff_le, Nat.reduceLeDiff]
      have hm0h : read_u64 (write_mem (write_mem s.mem o.alloc_bucket sizeof_map_bucket scratch)
          (ptr_add headers_ptr K.buckets_ptr_pos) 8 (le64 o.alloc_bucket)) headers_ptr = 0 := by
        rw [read_u64_write_apart _ _ _ _ _ (ranges_disjoint_symm _ _ _ _ dph),
          read_u64_write_apart _ _ _ _ _ nh, hcount]
      have hm0p : read_u64 (write_mem (write_mem s.mem o.alloc_bucket sizeof_map_bucket scratch)
          (ptr_add headers_ptr K.buckets_ptr_pos) 8 (le64 o.alloc_bucket))
          (ptr_add headers_ptr K.buckets_ptr_pos) = o.alloc_bucket := by
        rw [read_u64_write_same, Nat.mod_eq_of_lt b3]
      have hm0b : block_is (write_mem (write_mem s.mem o.alloc_bucket sizeof_map_bucket scratch)
          (ptr_add headers_ptr K.buckets_ptr_pos) 8 (le64 o.alloc_bucket))
          o.alloc_bucket scratch :=
        block_is_write_apart _ _ _ _ _ _ nbp (block_is_write _ _ _)
      rw [hrun]
      rcases inject_header_entry_cases H o headers_ptr propagated_ctx 0 o.alloc_bucket scratch
          { s with
            mem := write_mem (write_mem s.mem o.alloc_bucket sizeof_map_bucket scratch)
              (ptr_add headers_ptr K.buckets_ptr_pos) 8 (le64 o.alloc_bucket),
            allocated := s.allocated ++ [(o.alloc_bucket, sizeof_map_bucket)] }
        with ⟨hc, hag⟩ | ⟨hc, hag, hm⟩ | ⟨hc, hag, hm⟩
      · refine Or.inl ⟨hc, Or.inr (Or.inl ⟨hc0, ?_, ?_, hab⟩)⟩
        · unfold map_count
          rw [read_u64_agrees _ _ _ _ hag sh]
          exact hm0h
        · unfold map_buckets
          rw [read_u64_agrees _ _ _ _ hag sp]
          exact hm0p
      · have hp : map_buckets K (inject_header_entry H o headers_ptr propagated_ctx 0
            o.alloc_bucket scratch
            { s with
              mem := write_mem (write_mem s.mem o.alloc_bucket sizeof_map_bucket scratch)
                (ptr_add headers_ptr K.buckets_ptr_pos) 8 (le64 o.alloc_bucket),
              allocated := s.allocated ++ [(o.alloc_bucket, sizeof_map_bucket)] }).2.mem
            headers_ptr = o.alloc_bucket := by
          unfold map_buckets
          rw [hm, read_u64_write_apart _ _ _ _ _ dph, read_u64_agrees _ _ _ _ hag sp]
          exact hm0p
        refine Or.inl ⟨hc, Or.inr (Or.inr ⟨?_, ?_⟩)⟩
        · rw [hc0]
          unfold map_count
          rw [hm, read_u64_write_same]
        · rw [hp, hbase, hm]
          exact block_is_write_apart _ _ _ _ _ _ nbh (block_is_agrees _ _ _ _ _ hag nb hm0b)
      · have hp : map_buckets K (inject_header_entry H o headers_ptr propagated_ctx 0
            o.alloc_bucket scratch
            { s with
              mem := write_mem (write_mem s.mem o.alloc_bucket sizeof_map_bucket scratch)
                (ptr_add headers_ptr K.buckets_ptr_pos) 8 (le64 o.alloc_bucket),
              allocated := s.allocated ++ [(o.alloc_bucket, sizeof_map_bucket)] }).2.mem
            headers_ptr = o.alloc_bucket := by
          unfold map_buckets
          rw [hm, read_u64_write_apart _ _ _ _ _ np, read_u64_write_apart _ _ _ _ _ dph,
            read_u64_agrees _ _ _ _ hag sp]
          exact hm0p
        refine Or.inr ⟨hc, ?_, ?_, ?_⟩
        · rw [hc0]
          unfold map_count
          rw [hm, read_u64_write_apart _ _ _ _ _ nh, read_u64_write_same]
        · rw [hp, if_pos hc0]
        · rw [hp, hbase, hc0, hm]
          exact block_is_write _ _ _

/-- The array states inject_header can leave when the array had entries and the
reads of its block succeeded. -/
theorem inject_header_states_nonempty (K : Offsets) (H : Helpers) (o : InjectOutcome)
    (headers_ptr : Nat) (propagated_ctx : span_context) (s : State) (scratch : Buf)
    (hfresh : fresh_allocations K o headers_ptr)
    (hread : o.read_count = true) (hpos : 0 < map_count s.mem headers_ptr)
    (hlt : map_count s.mem headers_ptr < 8)
    (hscratch : s.golang_mapbucket_storage_map = some scratch)
    (hapart : existing_block_apart K o headers_ptr s.mem)
    (hrp : o.read_buckets_ptr = true) (hrb : o.read_bucket = true) :
    ((inject_header K H o headers_ptr propagated_ctx s).1 = -1 ∧
      (array_untouched K headers_ptr s.mem
          (inject_header K H o headers_ptr propagated_ctx s).2.mem ∨
       array_pointer_patched K o headers_ptr s.mem
          (inject_header K H o headers_ptr propagated_ctx s).2.mem ∨
       array_count_only K headers_ptr s
          (inject_header K H o headers_ptr propagated_ctx s).2.mem)) ∨
    ((inject_header K H o headers_ptr propagated_ctx s).1 = 0 ∧
      array_updated_by K o headers_ptr s
        (inject_header K H o headers_ptr propagated_ctx s).2.mem) := by
  obtain ⟨sh, sp, dph, -⟩ := fresh_strings_apart K o headers_ptr hfresh
  obtain ⟨ebh, ehb, epb, ebs⟩ := existing_block_facts K o headers_ptr s.mem hapart
  have hne : ¬ map_count s.mem headers_ptr = 0 := by omega
  have hbase : base_block K headers_ptr s
      = read_mem s.mem (map_buckets K s.mem headers_ptr) sizeof_map_bucket := by
    unfold base_block
    rw [if_neg hne]
  have hsucc : (map_count s.mem headers_ptr + 1) % 18446744073709551616
      = map_count s.mem headers_ptr + 1 := by omega
  have hrun : inject_header K H o headers_ptr propagated_ctx s
      = inject_header_entry H o headers_ptr propagated_ctx (map_count s.mem headers_ptr)
          (map_buckets K s.mem headers_ptr)
          (read_mem s.mem (map_buckets K s.mem headers_ptr) sizeof_map_bucket) s := by
    unfold map_count at hne hlt
    unfold inject_header map_count map_buckets
    simp only [hread, hscratch, hrp, hrb, hne, bpf_probe_read_u64, bpf_probe_read_buf,
      not_true_eq_false, if_false, if_true, ge_iff_le, Nat.not_le.mpr hlt]
  rw [hrun]
  rcases inject_header_entry_cases H o headers_ptr propagated_ctx (map_count s.mem headers_ptr)
      (map_buckets K s.mem headers_ptr)
      (read_mem s.mem (map_buckets K s.mem headers_ptr) sizeof_map_bucket) s
    with ⟨hc, hag⟩ | ⟨hc, hag, hm⟩ | ⟨hc, hag, hm⟩
  · refine Or.inl ⟨hc, Or.inl ⟨?_, ?_, ?_⟩⟩
    · exact read_u64_agrees _ _ _ _ hag sh
    · exact read_u64_agrees _ _ _ _ hag sp
    · intro _
      exact block_is_agrees _ _ _ _ _ hag ebs (block_is_read _ _)
  · have hp : map_buckets K (inject_header_entry H o headers_ptr propagated_ctx
        (map_count s.mem headers_ptr) (map_buckets K s.mem headers_ptr)
        (read_mem s.mem (map_buckets K s.mem headers_ptr) sizeof_map_bucket) s).2.mem
        headers_ptr = map_buckets K s.mem headers_ptr := by
      rw [hm]
      unfold map_buckets
      rw [read_u64_write_apart _ _ _ _ _ dph, read_u64_agrees _ _ _ _ hag sp]
    refine Or.inl ⟨hc, Or.inr (Or.inr ⟨?_, ?_⟩)⟩
    · rw [hm]
      unfold map_count
      rw [read_u64_write_same]
      unfold map_count at hsucc
      rw [hsucc, hsucc]
    · rw [hp, hbase, hm]
      exact block_is_write_apart _ _ _ _ _ _ ebh
        (block_is_agrees _ _ _ _ _ hag ebs (block_is_read _ _))
  · have hp : map_buckets K (inject_header_entry H o headers_ptr propagated_ctx
        (map_count s.mem headers_ptr) (map_buckets K s.mem headers_ptr)
        (read_mem s.mem (map_buckets K s.mem headers_ptr) sizeof_map_bucket) s).2.mem
        headers_ptr = map_buckets K s.mem headers_ptr := by
      rw [hm]
      show read_u64 _ (ptr_add headers_ptr K.buckets_ptr_pos) = _
      rw [read_u64_write_apart _ _ _ _ _ epb, read_u64_write_apart _ _ _ _ _ dph,
        read_u64_agrees _ _ _ _ hag sp]
      rfl
    refine Or.inr ⟨hc, ?_, ?_, ?_⟩
    · rw [hm]
      unfold map_count
      rw [read_u64_write_apart _ _ _ _ _ ehb, read_u64_write_same]
      unfold map_count at hsucc
      rw [hsucc, hsucc]
    · rw [hp, if_neg hne]
    · rw [hp, hbase, hm]
      exact block_is_write _ _ _

/-- C4, amended: the states one call of inject_header can leave the foreign
array in.  With fresh allocations and, for an array that has entries, a block
apart from the ranges the call writes and successful reads of that block, the
call either fails and leaves the array untouched, or with the block pointer
patched to the new block while the count is still 0, or with the count
incremented while the block is still without the new entry; or it succeeds and
leaves the array fully updated. -/
theorem inject_header_array_states (K : Offsets) (H : Helpers) (o : InjectOutcome)
    (headers_ptr : Nat) (propagated_ctx : span_context) (s : State)
    (hfresh : fresh_allocations K o headers_ptr)
    (hblock : 0 < map_count s.mem headers_ptr →
      existing_block_apart K o headers_ptr s.mem ∧
      o.read_buckets_ptr = true ∧ o.read_bucket = true) :
    ((inject_header K H o headers_ptr propagated_ctx s).1 = -1 ∧
      (array_untouched K headers_ptr s.mem
          (inject_header K H o headers_ptr propagated_ctx s).2.mem ∨
       array_pointer_patched K o headers_ptr s.mem
          (inject_header K H o headers_ptr propagated_ctx s).2.mem ∨
       array_count_only K headers_ptr s
          (inject_header K H o headers_ptr propagated_ctx s).2.mem)) ∨
    ((inject_header K H o headers_ptr propagated_ctx s).1 = 0 ∧
      array_updated_by K o headers_ptr s
        (inject_header K H o headers_ptr propagated_ctx s).2.mem) := by
  have hsame : ∀ r : Int × State, r = (-1, s) →
      (r.1 = -1 ∧ (array_untouched K headers_ptr s.mem r.2.mem ∨
        array_pointer_patched K o headers_ptr s.mem r.2.mem ∨
        array_count_only K headers_ptr s r.2.mem)) ∨
      (r.1 = 0 ∧ array_updated_by K o headers_ptr s r.2.mem) := by
    intro r hr
    subst hr
    exact Or.inl ⟨rfl, Or.inl (array_untouched_refl _ _ _)⟩
  cases hread : o.read_count with
  | false =>
    apply hsame
    unfold inject_header
    simp only [hread, Bool.false_eq_true, not_false_eq_true, if_true]
  | true =>
    by_cases hfull : 8 ≤ map_count s.mem headers_ptr
    · apply hsame
      unfold map_count at hfull
      unfold inject_header
      simp only [hread, not_true_eq_false, if_false]
      rw [if_pos hfull]
    · cases hscratch : s.golang_mapbucket_storage_map with
      | none =>
        apply hsame
        unfold map_count at hfull
        unfold inject_header
        simp only [hread, hscratch, not_true_eq_false, if_false, ge_iff_le, hfull]
      | some scratch =>
        by_cases hcount : map_count s.mem headers_ptr = 0
        · exact inject_header_states_empty K H o headers_ptr propagated_ctx s scratch hfresh
            hread hcount hscratch
        · obtain ⟨hapart, hrp, hrb⟩ := hblock (by omega)
          exact inject_header_states_nonempty K H o headers_ptr propagated_ctx s scratch
            hfresh hread (by omega) (by omega) hscratch hapart hrp hrb

/-! ## The theorems at concrete inputs -/

/-- C1 at a concrete input: a writer with capacity 100 and cursor 50 has no room
for the 70 bytes of the line, and the hook leaves the memory as it was. -/
theorem writeSubset_no_room_no_write_witness :
    (uprobe_writeSubset demo_offsets demo_helpers demo_write_ok demo_regs demo_state).mem
      = demo_state.mem :=
  writeSubset_no_room_no_write demo_offsets demo_helpers demo_write_ok demo_regs demo_state
    (by decide) (by decide)

/-- With capacity 4096 and cursor 50 the line is written at base + 50 and the
cursor becomes 120. -/
theorem writeSubset_roomy_run :
    (uprobe_writeSubset demo_offsets demo_helpers demo_write_ok demo_regs
      demo_roomy_state).mem (12288 + 50) = 84 ∧
    (uprobe_writeSubset demo_offsets demo_helpers demo_write_ok demo_regs
      demo_roomy_state).mem (12288 + 50 + 69) = 10 ∧
    writer_cursor demo_offsets demo_helpers demo_regs
      (uprobe_writeSubset demo_offsets demo_helpers demo_write_ok demo_regs
        demo_roomy_state) = 120 := by
  decide

/-- C2 at a concrete input: the empty array at 4096, every helper call
succeeding, the allocator returning 32768, 33280, 33792 and 34304. -/
theorem inject_header_into_empty_witness :
    (inject_header demo_offsets demo_helpers demo_inject_ok 4096 demo_span_context
      demo_state).1 = 0 ∧
    map_count (inject_header demo_offsets demo_helpers demo_inject_ok 4096 demo_span_context
      demo_state).2.mem 4096 = 1 ∧
    map_buckets demo_offsets (inject_header demo_offsets demo_helpers demo_inject_ok 4096
      demo_span_context demo_state).2.mem 4096 = 32768 ∧
    (inject_header demo_offsets demo_helpers demo_inject_ok 4096 demo_span_context
      demo_state).2.mem (32768 + tophash_offset 0) = 0xee :=
  have h := inject_header_into_empty demo_offsets demo_helpers demo_inject_ok 4096
    demo_span_context demo_state zero_buf rfl rfl (by decide) (by decide) rfl (by decide)
    (by decide) (by decide) rfl rfl (by unfold fresh_allocations; decide)
  ⟨h.1, h.2.1, h.2.2.1, h.2.2.2.1⟩

/-- C3 at a concrete input: the count field of the header at 4096 holds 8. -/
theorem inject_header_full_array_witness :
    inject_header demo_offsets demo_helpers demo_inject_ok 4096 demo_span_context
      demo_full_state = (-1, demo_full_state) :=
  inject_header_full_array demo_offsets demo_helpers demo_inject_ok 4096 demo_span_context
    demo_full_state rfl (by decide)

/-- C4 fails as stated.  On the empty array at 4096, when the block is
allocated, the block pointer is patched and the allocation of the key then
fails, inject_header returns failure and the array is neither untouched (its
block pointer is now 32768) nor fully updated (its count is still 0).  When
instead everything succeeds but the last write, that of the block, the call
returns failure with the count at 1 and the block pointer patched, while slot 0
of the block has no type tag: again neither untouched nor fully updated. -/
theorem inject_header_not_atomic :
    ((inject_header demo_offsets demo_helpers demo_inject_key_fails 4096 demo_span_context
      demo_state).1 = -1 ∧
    ¬ (array_untouched demo_offsets 4096 demo_state.mem
          (inject_header demo_offsets demo_helpers demo_inject_key_fails 4096
            demo_span_context demo_state).2.mem ∨
       array_fully_updated demo_offsets 4096 demo_state.mem
          (inject_header demo_offsets demo_helpers demo_inject_key_fails 4096
            demo_span_context demo_state).2.mem)) ∧
    ((inject_header demo_offsets demo_helpers demo_inject_block_write_fails 4096
      demo_span_context demo_state).1 = -1 ∧
    ¬ (array_untouched demo_offsets 4096 demo_state.mem
          (inject_header demo_offsets demo_helpers demo_inject_block_write_fails 4096
            demo_span_context demo_state).2.mem ∨
       array_fully_updated demo_offsets 4096 demo_state.mem
          (inject_header demo_offsets demo_helpers demo_inject_block_write_fails 4096
            demo_span_context demo_state).2.mem)) := by
  refine ⟨⟨by decide, ?_⟩, ⟨by decide, ?_⟩⟩
  · rintro (⟨-, hp, -⟩ | ⟨hc, -⟩)
    · exact absurd hp (by decide)
    · exact absurd hc (by decide)
  · rintro (⟨hc, -, -⟩ | ⟨-, base, key_ptr, value_ptr, hb⟩)
    · exact absurd hc (by decide)
    · have h0 := hb (tophash_offset (map_count demo_state.mem 4096 % 8)) (by decide)
      rw [with_entry_tophash _ _ _ _ (by decide)] at h0
      exact absurd h0 (by decide)

/-- The amended C4 at two concrete inputs.  On the array at 4096 that holds one
entry in its block at 12288, with both reads of the block succeeding and only
the last write, that of the block, failing, the hypotheses on the existing block
hold and the call leaves one of the four states.  On the empty array at 4096,
with the allocation of the key failing after the block pointer was patched, it
does so too. -/
theorem inject_header_array_states_witness :
    (0 < map_count demo_one_entry_state.mem 4096 ∧
      (((inject_header demo_offsets demo_helpers demo_inject_block_write_fails 4096
          demo_span_context demo_one_entry_state).1 = -1 ∧
        (array_untouched demo_offsets 4096 demo_one_entry_state.mem
            (inject_header demo_offsets demo_helpers demo_inject_block_write_fails 4096
              demo_span_context demo_one_entry_state).2.mem ∨
         array_pointer_patched demo_offsets demo_inject_block_write_fails 4096
            demo_one_entry_state.mem
            (inject_header demo_offsets demo_helpers demo_inject_block_write_fails 4096
              demo_span_context demo_one_entry_state).2.mem ∨
         array_count_only demo_offsets 4096 demo_one_entry_state
            (inject_header demo_offsets demo_helpers demo_inject_block_write_fails 4096
              demo_span_context demo_one_entry_state).2.mem)) ∨
      ((inject_header demo_offsets demo_helpers demo_inject_block_write_fails 4096
          demo_span_context demo_one_entry_state).1 = 0 ∧
        array_updated_by demo_offsets demo_inject_block_write_fails 4096 demo_one_entry_state
          (inject_header demo_offsets demo_helpers demo_inject_block_write_fails 4096
            demo_span_context demo_one_entry_state).2.mem))) ∧
    (((inject_header demo_offsets demo_helpers demo_inject_key_fails 4096 demo_span_context
        demo_state).1 = -1 ∧
      (array_untouched demo_offsets 4096 demo_state.mem
          (inject_header demo_offsets demo_helpers demo_inject_key_fails 4096
            demo_span_context demo_state).2.mem ∨
       array_pointer_patched demo_offsets demo_inject_key_fails 4096 demo_state.mem
          (inject_header demo_offsets demo_helpers demo_inject_key_fails 4096
            demo_span_context demo_state).2.mem ∨
       array_count_only demo_offsets 4096 demo_state
          (inject_header demo_offsets demo_helpers demo_inject_key_fails 4096
            demo_span_context demo_state).2.mem)) ∨
    ((inject_header demo_offsets demo_helpers demo_inject_key_fails 4096 demo_span_context
        demo_state).1 = 0 ∧
      array_updated_by demo_offsets demo_inject_key_fails 4096 demo_state
        (inject_header demo_offsets demo_helpers demo_inject_key_fails 4096
          demo_span_context demo_state).2.mem)) :=
  ⟨⟨by decide,
    inject_header_array_states demo_offsets demo_helpers demo_inject_block_write_fails 4096
      demo_span_context demo_one_entry_state (by unfold fresh_allocations; decide)
      (fun _ => ⟨by unfold existing_block_apart; decide, rfl, rfl⟩)⟩,
   inject_header_array_states demo_offsets demo_helpers demo_inject_key_fails 4096
    demo_span_context demo_state (by unfold fresh_allocations; decide)
    (fun h => absurd h (by decide))⟩

/-- C5 fails on the code.  On an array with one entry, when the read of the
block pointer fails the call goes on: it makes its three allocations and writes
the count 2 into the header before it returns failure.  When only the read of
the block fails the call returns success and the block has lost the type tag of
its entry in slot 0 (7 before the call). -/
theorem inject_header_continues_after_failed_read :
    (inject_header demo_offsets demo_helpers demo_inject_ptr_read_fails 4096
      demo_span_context demo_one_entry_state).1 = -1 ∧
    map_count demo_one_entry_state.mem 4096 = 1 ∧
    map_count (inject_header demo_offsets demo_helpers demo_inject_ptr_read_fails 4096
      demo_span_context demo_one_entry_state).2.mem 4096 = 2 ∧
    (inject_header demo_offsets demo_helpers demo_inject_ptr_read_fails 4096
      demo_span_context demo_one_entry_state).2.allocated
      = [(33280, 11), (33792, 55), (34304, 16)] ∧
    (inject_header demo_offsets demo_helpers demo_inject_block_read_fails 4096
      demo_span_context demo_one_entry_state).1 = 0 ∧
    demo_one_entry_state.mem (12288 + tophash_offset 0) = 7 ∧
    (inject_header demo_offsets demo_helpers demo_inject_block_read_fails 4096
      demo_span_context demo_one_entry_state).2.mem (12288 + tophash_offset 0) = 0 ∧
    (inject_header demo_offsets demo_helpers demo_inject_block_read_fails 4096
      demo_span_context demo_one_entry_state).2.mem (12288 + tophash_offset 1) = 0xee := by
  decide

/-- C9 at a concrete input: the call with context 24576 is already tracked. -/
theorem roundTrip_duplicate_is_noop_witness :
    uprobe_Transport_roundTrip demo_offsets demo_helpers demo_roundTrip_outcome demo_regs
      demo_state = demo_state :=
  roundTrip_duplicate_is_noop demo_offsets demo_helpers demo_roundTrip_outcome demo_regs
    demo_state demo_record rfl

/-- C10 at a concrete input: no call is in flight, a parent span is registered
for the context, and the hook publishes demo_published. -/
theorem roundTrip_published_identifiers_witness :
    (∀ i, i < TRACE_ID_SIZE → demo_published.sc.TraceID i = demo_span_context.TraceID i) ∧
    (∀ i, i < SPAN_ID_SIZE → demo_published.psc.SpanID i = demo_span_context.SpanID i) ∧
    (∀ i, i < SPAN_ID_SIZE → demo_published.sc.SpanID i = 200 + i) :=
  (roundTrip_published_identifiers demo_offsets demo_helpers demo_roundTrip_outcome
    demo_regs demo_idle_state demo_published rfl rfl).1 demo_span_context rfl

/-- The return hook on demo_state emits one event with end_time 2000 and leaves
no record under the key. -/
theorem roundTrip_Returns_run :
    (uprobe_Transport_roundTrip_Returns demo_offsets demo_helpers demo_returns_outcome
      demo_regs demo_state).events.length = 1 ∧
    ((uprobe_Transport_roundTrip_Returns demo_offsets demo_helpers demo_returns_outcome
      demo_regs demo_state).events.map (fun e => e.end_time)) = [2000] ∧
    (uprobe_Transport_roundTrip_Returns demo_offsets demo_helpers demo_returns_outcome
      demo_regs demo_state).http_events.length = 0 := by
  decide

end HttpClientProbe
